import Mathlib

/-!
Verification of the resource-scaffolding CLI scripts of this repository.

The repository ships four near-duplicate generator scripts; we embed each
template and the per-invocation write/report sequences faithfully:

* `genA` — first script of `src/unnamed/part_000` (flat input, route file
  under `src/routes/<name>`, module files under `src/modules/<name>`);
* `genB` — second script of `src/unnamed/part_000` (flat input, all six
  artifacts colocated under `src/modules/<name>`, with a service file);
* `genC` — `src/.bin/nested-resource-cli.js` (nested input
  `folder1/folder2/name`, split route/module trees);
* `genD` — `src/unnamed/part_001` (nested input, colocated, with service).

Strings are modelled by Lean `String`; the filesystem by an explicit state
(list of directories, association list of file path to content).  Paths are
relative to the project root (the scripts' `path.join(__dirname, '..')`), so
the scripts' `baseDir` is the literal `"src"`.  `path.join` is modelled as
joining the non-empty components with `/` (no `..`-normalisation: none of
the joined components produced by the scripts contains `..`).  Braces inside
template literals are written with `\x7b` and `\x7d` escapes.
-/

set_option maxRecDepth 10000
set_option linter.unusedVariables false

/-- Whitespace class used by JavaScript `String.prototype.trim` (restricted
to the ASCII whitespace characters; the templates only ever have `' '` and
`'\n'` at their edges). -/
def isJsWs (c : Char) : Bool :=
  c = ' ' || c = '\n' || c = '\t' || c = '\r' || c = '\x0b' || c = '\x0c'

/-- Drop leading whitespace. -/
def trimL (l : List Char) : List Char := l.dropWhile isJsWs

/-- Drop trailing whitespace. -/
def trimR (l : List Char) : List Char := (l.reverse.dropWhile isJsWs).reverse

/-- JavaScript `s.trim()`. -/
def jsTrim (s : String) : String := ⟨trimR (trimL s.data)⟩

/-- JavaScript `s.toLowerCase()` (per-character ASCII case fold, which is all
the generator inputs exercise). -/
def jsToLower (s : String) : String := ⟨s.data.map Char.toLower⟩

/-- The scripts' helper `capitalize(str)`, i.e.
`str.charAt(0).toUpperCase() + str.slice(1)`. -/
def jsCapitalize (s : String) : String :=
  match s.data with
  | [] => ""
  | c :: cs => ⟨Char.toUpper c :: cs⟩

/-- Modelled from the spec: `capitalized = uppercase(first character of
lower) + rest(lower)` (spec section 3, NameVariants invariant). -/
def specCapitalized (lower : String) : String :=
  match lower.data with
  | [] => ""
  | c :: cs => ⟨Char.toUpper c :: cs⟩

/-- JavaScript `s.split('/')` on the character list: splits at every `/`,
keeping empty fragments (`"".split('/') = [""]`, `"foo/".split('/') =
["foo", ""]`). -/
def splitSlash : List Char → List (List Char)
  | [] => [[]]
  | c :: rest =>
    if c = '/' then [] :: splitSlash rest
    else
      match splitSlash rest with
      | [] => [[c]]
      | g :: gs => (c :: g) :: gs

/-- JavaScript `s.split('/')`. -/
def jsSplit (s : String) : List String := (splitSlash s.data).map String.mk

/-- The nested scripts' `parts.pop()`: the final path segment. -/
def leafOf (input : String) : String := (jsSplit input).getLastD ""

/-- The nested scripts' `nestedFolders` (all segments before the leaf). -/
def foldersOf (input : String) : List String := (jsSplit input).dropLast

/-- The nested scripts' `resourceName = parts.pop().toLowerCase()`. -/
def resourceNameOf (input : String) : String := jsToLower (leafOf input)

/-- JavaScript `array.join(sep)`. -/
def joinSep (sep : String) (l : List String) : String := String.intercalate sep l

/-- Node `path.join(...)` as the scripts use it: join the non-empty
components with `/`. -/
def pathJoin (parts : List String) : String :=
  joinSep "/" (parts.filter (fun p => p != ""))

/-- The nested scripts' up-traversal prefix
`Array(nestedFolders.length + 2).fill('..').join('/')`. -/
def upTraversal (segs : List String) : String :=
  joinSep "/" (List.replicate (segs.length + 2) "..")

/-- Modelled from the spec: the up-traversal count is `d + K` for the mode
constant `K`, so the prefix is `d + K` repetitions of `..` joined by `/`
(spec sections 4.2 and 8). -/
def specUpTraversal (d K : Nat) : String :=
  String.intercalate "/" (List.replicate (d + K) "..")

/-- UTF-8 size of one character, as Node `Buffer.byteLength(s, 'utf8')`
counts it. -/
def csize (c : Char) : Nat :=
  if c.val < 0x80 then 1 else if c.val < 0x800 then 2
  else if c.val < 0x10000 then 3 else 4

/-- Node `Buffer.byteLength(s, 'utf8')`. -/
def utf8Bytes (s : String) : Nat := (s.data.map csize).sum

/-- ContainsInOrder: the strings of the list occur in `s`, pairwise disjoint
and in the given textual order. `found` consumes one listed string at the
current position, `skip` passes over unlisted text. -/
inductive OrderedOcc : String → List String → Prop
  | nil (s : String) : OrderedOcc s []
  | found (x v : String) (rest : List String) (h : OrderedOcc v rest) :
      OrderedOcc (x ++ v) (x :: rest)
  | skip (u v : String) (l : List String) (h : OrderedOcc v l) : OrderedOcc (u ++ v) l

-- The eight route registration statements, identical text in all four
-- generator scripts (the lines starting `router.` in each routeContent).

def stmtCreateOne (name cap : String) : String :=
  "router.post(\"/create-" ++ name ++ "\", create" ++ cap ++ ");"

def stmtCreateMany (name cap : String) : String :=
  "router.post(\"/create-" ++ name ++ "/many\", createMany" ++ cap ++ ");"

def stmtUpdateMany (name cap : String) : String :=
  "router.put(\"/update-" ++ name ++ "/many\", updateMany" ++ cap ++ ");"

def stmtUpdateOne (name cap : String) : String :=
  "router.put(\"/update-" ++ name ++ "/:id\", validate" ++ cap ++ "Id, update" ++ cap ++ ");"

def stmtDeleteMany (name cap : String) : String :=
  "router.delete(\"/delete-" ++ name ++ "/many\", deleteMany" ++ cap ++ ");"

def stmtDeleteOne (name cap : String) : String :=
  "router.delete(\"/delete-" ++ name ++ "/:id\", validate" ++ cap ++ "Id, delete" ++ cap ++ ");"

def stmtGetMany (name cap : String) : String :=
  "router.get(\"/get-" ++ name ++ "/many\", getMany" ++ cap ++ ");"

def stmtGetOne (name cap : String) : String :=
  "router.get(\"/get-" ++ name ++ "/:id\", validate" ++ cap ++ "Id, get" ++ cap ++ "ById);"

-- The shared-infrastructure import lines of the nested generators: each
-- embeds the computed up-traversal prefix (Array(n+2).fill('..').join('/')).

def genCServerResponseImport (segs : List String) : String :=
  "import ServerResponse from '" ++ upTraversal segs ++ "/helpers/responses/custom-response';"

def genDServerResponseImport (segs : List String) : String :=
  "import ServerResponse from '" ++ upTraversal segs ++ "/helpers/responses/custom-response';"

def genCZodHandlerImport (segs : List String) : String :=
  "import zodErrorHandler from '" ++ upTraversal segs ++ "/handlers/zod-error-handler';"

def genDZodHandlerImport (segs : List String) : String :=
  "import zodErrorHandler from '" ++ upTraversal segs ++ "/handlers/zod-error-handler';"

def genARouteContent (name cap : String) : String :=
  "\n// Import Router from express\nimport \x7b Router \x7d from 'express';\n\n// Import controller from corresponding module\nimport \x7b \n  create" ++
    (cap ++
    (",\n  createMany" ++
    (cap ++
    (",\n  update" ++
    (cap ++
    (",\n  updateMany" ++
    (cap ++
    (",\n  delete" ++
    (cap ++
    (",\n  deleteMany" ++
    (cap ++
    (",\n  get" ++
    (cap ++
    ("ById,\n  getMany" ++
    (cap ++
    ("\n\x7d from '../../modules/" ++
    (name ++
    ("/" ++
    (name ++
    (".controller';\nimport \x7b validate" ++
    (cap ++
    ("Id \x7d from '../../modules/" ++
    (name ++
    ("/" ++
    (name ++
    (".validation';\n\n// Initialize router\nconst router = Router();\n\n// Define route handlers\n/**\n * @route POST /api/v1/" ++
    (name ++
    ("/create-" ++
    (name ++
    ("\n * @description Create a new " ++
    (name ++
    ("\n * @access Public\n * @param \x7bfunction\x7d controller - ['create" ++
    (cap ++
    ("']\n */\n" ++
    (stmtCreateOne name cap ++
    ("\n\n/**\n * @route POST /api/v1/" ++
    (name ++
    ("/create-" ++
    (name ++
    ("/many\n * @description Create multiple " ++
    (name ++
    ("s\n * @access Public\n * @param \x7bfunction\x7d controller - ['createMany" ++
    (cap ++
    ("']\n */\n" ++
    (stmtCreateMany name cap ++
    ("\n\n/**\n * @route PUT /api/v1/" ++
    (name ++
    ("/update-" ++
    (name ++
    ("/many\n * @description Update multiple " ++
    (name ++
    ("s\n * @access Public\n * @param \x7bfunction\x7d controller - ['updateMany" ++
    (cap ++
    ("']\n */\n" ++
    (stmtUpdateMany name cap ++
    ("\n\n/**\n * @route PUT /api/v1/" ++
    (name ++
    ("/update-" ++
    (name ++
    ("/:id\n * @description Update " ++
    (name ++
    (" information\n * @param \x7bstring\x7d id - The ID of the " ++
    (name ++
    (" to update\n * @access Public\n * @param \x7bfunction\x7d controller - ['update" ++
    (cap ++
    ("']\n * @param \x7bfunction\x7d validation - ['validate" ++
    (cap ++
    ("Id']\n */\n" ++
    (stmtUpdateOne name cap ++
    ("\n\n\n/**\n * @route DELETE /api/v1/" ++
    (name ++
    ("/delete-" ++
    (name ++
    ("/many\n * @description Delete multiple " ++
    (name ++
    ("s\n * @access Public\n * @param \x7bfunction\x7d controller - ['deleteMany" ++
    (cap ++
    ("']\n */\n" ++
    (stmtDeleteMany name cap ++
    ("\n\n/**\n * @route DELETE /api/v1/" ++
    (name ++
    ("/delete-" ++
    (name ++
    ("/:id\n * @description Delete a " ++
    (name ++
    ("\n * @param \x7bstring\x7d id - The ID of the " ++
    (name ++
    (" to delete\n * @access Public\n * @param \x7bfunction\x7d controller - ['delete" ++
    (cap ++
    ("']\n * @param \x7bfunction\x7d validation - ['validate" ++
    (cap ++
    ("Id']\n */\n" ++
    (stmtDeleteOne name cap ++
    ("\n\n/**\n * @route GET /api/v1/" ++
    (name ++
    ("/get-" ++
    (name ++
    ("/many\n * @description Get multiple " ++
    (name ++
    ("s\n * @access Public\n * @param \x7bfunction\x7d controller - ['getMany" ++
    (cap ++
    ("']\n */\n" ++
    (stmtGetMany name cap ++
    ("\n\n/**\n * @route GET /api/v1/" ++
    (name ++
    ("/get-" ++
    (name ++
    ("/:id\n * @description Get a " ++
    (name ++
    (" by ID\n * @param \x7bstring\x7d id - The ID of the " ++
    (name ++
    (" to retrieve\n * @access Public\n * @param \x7bfunction\x7d controller - ['get" ++
    (cap ++
    ("ById']\n * @param \x7bfunction\x7d validation - ['validate" ++
    (cap ++
    ("Id']\n */\n" ++
    (stmtGetOne name cap ++
    ("\n\n// Export the router\nmodule.exports = router;\n    "))))))))))))))))))))))))))))))))))))))))))))))))))))))))))))))))))))))))))))))))))))))))))))))))))))))))))))))))))))))

def genAControllerContent (name cap : String) : String :=
  "\nimport \x7b Request, Response \x7d from 'express';\nimport ServerResponse from '../../helpers/responses/custom-response';\n\n/**\n * Controller function to handle the create operation for " ++
    (cap ++
    (".\n *\n * @param \x7bobject\x7d req - The request object containing " ++
    (name ++
    (" data in the body.\n * @param \x7bobject\x7d res - The response object used to send the response.\n * @returns \x7bvoid\x7d\n */\nexport const create" ++
    (cap ++
    (" = async (req: Request, res: Response) => \x7b\n  try \x7b\n    // TODO: Add logic to create a new " ++
    (name ++
    ("\n    return ServerResponse(res, true, 201, 'Resource created successfully');\n  \x7d catch (error) \x7b\n    return ServerResponse(res, false, 500, 'Server error');\n  \x7d\n\x7d;\n\n/**\n * Controller function to handle the creation of multiple " ++
    (name ++
    ("s.\n *\n * @param \x7bobject\x7d req - The request object containing an array of " ++
    (name ++
    (" data in the body.\n * @param \x7bobject\x7d res - The response object used to send the response.\n * @returns \x7bvoid\x7d\n */\nexport const createMany" ++
    (cap ++
    (" = async (req: Request, res: Response) => \x7b\n  try \x7b\n    // TODO: Add logic to create multiple " ++
    (name ++
    ("s\n    return ServerResponse(res, true, 201, 'Resources created successfully');\n  \x7d catch (error) \x7b\n    return ServerResponse(res, false, 500, 'Server error');\n  \x7d\n\x7d;\n\n/**\n * Controller function to handle the update operation for a single " ++
    (cap ++
    (".\n *\n * @param \x7bobject\x7d req - The request object containing " ++
    (name ++
    (" data in the body and the ID in URL parameters.\n * @param \x7bobject\x7d res - The response object used to send the response.\n * @returns \x7bvoid\x7d\n */\nexport const update" ++
    (cap ++
    (" = async (req: Request, res: Response) => \x7b\n  try \x7b\n    const \x7b id \x7d = req.params;\n    // TODO: Add logic to update a single " ++
    (name ++
    (" by ID\n    return ServerResponse(res, true, 200, 'Resource updated successfully');\n  \x7d catch (error) \x7b\n    return ServerResponse(res, false, 500, 'Server error');\n  \x7d\n\x7d;\n\n/**\n * Controller function to handle the update operation for multiple " ++
    (name ++
    ("s.\n *\n * @param \x7bobject\x7d req - The request object containing an array of " ++
    (name ++
    (" data in the body.\n * @param \x7bobject\x7d res - The response object used to send the response.\n * @returns \x7bvoid\x7d\n */\nexport const updateMany" ++
    (cap ++
    (" = async (req: Request, res: Response) => \x7b\n  try \x7b\n    // TODO: Add logic to update multiple " ++
    (name ++
    ("s\n    return ServerResponse(res, true, 200, 'Resources updated successfully');\n  \x7d catch (error) \x7b\n    return ServerResponse(res, false, 500, 'Server error');\n  \x7d\n\x7d;\n\n/**\n * Controller function to handle the deletion of a single " ++
    (cap ++
    (".\n *\n * @param \x7bobject\x7d req - The request object containing the ID of the " ++
    (name ++
    (" to delete in URL parameters.\n * @param \x7bobject\x7d res - The response object used to send the response.\n * @returns \x7bvoid\x7d\n */\nexport const delete" ++
    (cap ++
    (" = async (req: Request, res: Response) => \x7b\n  try \x7b\n    const \x7b id \x7d = req.params;\n    // TODO: Add logic to delete a single " ++
    (name ++
    (" by ID\n    return ServerResponse(res, true, 200, 'Resource deleted successfully');\n  \x7d catch (error) \x7b\n    return ServerResponse(res, false, 500, 'Server error');\n  \x7d\n\x7d;\n\n/**\n * Controller function to handle the deletion of multiple " ++
    (name ++
    ("s.\n *\n * @param \x7bobject\x7d req - The request object containing an array of IDs of " ++
    (name ++
    ("s to delete in the body.\n * @param \x7bobject\x7d res - The response object used to send the response.\n * @returns \x7bvoid\x7d\n */\nexport const deleteMany" ++
    (cap ++
    (" = async (req: Request, res: Response) => \x7b\n  try \x7b\n    // TODO: Add logic to delete multiple " ++
    (name ++
    ("s\n    return ServerResponse(res, true, 200, 'Resources deleted successfully');\n  \x7d catch (error) \x7b\n    return ServerResponse(res, false, 500, 'Server error');\n  \x7d\n\x7d;\n\n/**\n * Controller function to handle the retrieval of a single " ++
    (cap ++
    (" by ID.\n *\n * @param \x7bobject\x7d req - The request object containing the ID of the " ++
    (name ++
    (" to retrieve in URL parameters.\n * @param \x7bobject\x7d res - The response object used to send the response.\n * @returns \x7bvoid\x7d\n */\nexport const get" ++
    (cap ++
    ("ById = async (req: Request, res: Response) => \x7b\n  try \x7b\n    const \x7b id \x7d = req.params;\n    // TODO: Add logic to get a single " ++
    (name ++
    (" by ID\n    return ServerResponse(res, true, 200, 'Resource retrieved successfully');\n  \x7d catch (error) \x7b\n    return ServerResponse(res, false, 500, 'Server error');\n  \x7d\n\x7d;\n\n/**\n * Controller function to handle the retrieval of multiple " ++
    (name ++
    ("s.\n *\n * @param \x7bobject\x7d req - The request object containing query parameters for filtering.\n * @param \x7bobject\x7d res - The response object used to send the response.\n * @returns \x7bvoid\x7d\n */\nexport const getMany" ++
    (cap ++
    (" = async (req: Request, res: Response) => \x7b\n  try \x7b\n    // TODO: Add logic to get multiple " ++
    (name ++
    ("s\n    return ServerResponse(res, true, 200, 'Resources retrieved successfully');\n  \x7d catch (error) \x7b\n    return ServerResponse(res, false, 500, 'Server error');\n  \x7d\n\x7d;\n    "))))))))))))))))))))))))))))))))))))))))))))))))))))))))))))))

def genAModelContent (name cap : String) : String :=
  "\nimport mongoose, \x7b Document, Schema \x7d from 'mongoose';\n\n// Define an interface representing a " ++
    (cap ++
    (" document\ninterface I" ++
    (cap ++
    (" extends Document \x7b\n  // Define the schema fields with their types\n  // Example fields (replace with actual fields)\n  // fieldName: fieldType;\n\x7d\n\n// Define the " ++
    (cap ++
    (" schema\nconst " ++
    (cap ++
    ("Schema: Schema<I" ++
    (cap ++
    ("> = new Schema(\x7b\n  // Define schema fields here\n  // Example fields (replace with actual schema)\n  // fieldName: \x7b\n  //   type: Schema.Types.FieldType,\n  //   required: true,\n  //   trim: true,\n  // \x7d,\n\x7d);\n\n// Create the " ++
    (cap ++
    (" model\nconst " ++
    (cap ++
    (" = mongoose.model<I" ++
    (cap ++
    (">('" ++
    (cap ++
    ("', " ++
    (cap ++
    ("Schema);\n\n// Export the " ++
    (cap ++
    (" model\nexport default " ++
    (cap ++
    (";\n    "))))))))))))))))))))))))

def genAInterfaceContent (name cap : String) : String :=
  "\n/**\n * Type definition for " ++
    (cap ++
    (".\n *\n * This type defines the structure of a single " ++
    (name ++
    (" object.\n * @interface T" ++
    (cap ++
    ("\n */\nexport interface T" ++
    (cap ++
    (" \x7b\n  // Add fields as needed\n\x7d\n    "))))))))

def genAValidationContent (name cap : String) : String :=
  "\nimport \x7b NextFunction, Request, Response \x7d from 'express';\nimport \x7b isMongoId \x7d from 'validator';\nimport \x7b z \x7d from 'zod';\nimport zodErrorHandler from '../../handlers/zod-error-handler';\n\n/**\n * Zod schema for validating " ++
    (name ++
    (" data.\n */\nconst zod" ++
    (cap ++
    ("Schema = z.object(\x7b\n  id: z\n    .string(\x7b\n      required_error: \"Id is required\",\n      invalid_type_error: \"Please provide a valid id\",\n    \x7d)\n    .refine((id: string) => isMongoId(id), \x7b\n      message: \"Please provide a valid id\",\n    \x7d),\n  ids: z\n    .array(z.string().refine((id: string) => isMongoId(id), \x7b\n      message: \"Each ID must be a valid MongoDB ObjectId\",\n    \x7d))\n    .min(1, \x7b\n      message: \"At least one ID must be provided\",\n    \x7d),\n\x7d).strict();\n    \n/**\n * Middleware function to validate " ++
    (name ++
    (" ID using Zod schema.\n * @param \x7bobject\x7d req - The request object.\n * @param \x7bobject\x7d res - The response object.\n * @param \x7bfunction\x7d next - The next middleware function.\n * @returns \x7bvoid\x7d\n */\nexport const validate" ++
    (cap ++
    ("Id = (req: Request, res: Response, next: NextFunction) => \x7b\n  // Validate request params\n  const \x7b error, success \x7d = zod" ++
    (cap ++
    ("Schema.pick(\x7b id: true \x7d).safeParse(\x7b id: req.params.id \x7d);\n\n  // Check if validation was successful\n  if (!success) \x7b\n    // If validation failed, use the Zod error handler to send an error response\n    return zodErrorHandler(req, res, error);\n  \x7d\n\n  // If validation passed, proceed to the next middleware function\n  return next();\n\x7d;\n    "))))))))))

def genBRouteContent (name cap : String) : String :=
  "\n// Import Router from express\nimport \x7b Router \x7d from 'express';\n\n// Import controller from corresponding module\nimport \x7b \n  create" ++
    (cap ++
    (",\n  createMany" ++
    (cap ++
    (",\n  update" ++
    (cap ++
    (",\n  updateMany" ++
    (cap ++
    (",\n  delete" ++
    (cap ++
    (",\n  deleteMany" ++
    (cap ++
    (",\n  get" ++
    (cap ++
    ("ById,\n  getMany" ++
    (cap ++
    ("\n\x7d from './" ++
    (name ++
    (".controller';\n\n//Import validation from corresponding module\nimport \x7b validate" ++
    (cap ++
    ("Id \x7d from './" ++
    (name ++
    (".validation';\n\n// Initialize router\nconst router = Router();\n\n// Define route handlers\n/**\n * @route POST /api/v1/" ++
    (name ++
    ("/create-" ++
    (name ++
    ("\n * @description Create a new " ++
    (name ++
    ("\n * @access Public\n * @param \x7bfunction\x7d controller - ['create" ++
    (cap ++
    ("']\n */\n" ++
    (stmtCreateOne name cap ++
    ("\n\n/**\n * @route POST /api/v1/" ++
    (name ++
    ("/create-" ++
    (name ++
    ("/many\n * @description Create multiple " ++
    (name ++
    ("s\n * @access Public\n * @param \x7bfunction\x7d controller - ['createMany" ++
    (cap ++
    ("']\n */\n" ++
    (stmtCreateMany name cap ++
    ("\n\n/**\n * @route PUT /api/v1/" ++
    (name ++
    ("/update-" ++
    (name ++
    ("/many\n * @description Update multiple " ++
    (name ++
    ("s\n * @access Public\n * @param \x7bfunction\x7d controller - ['updateMany" ++
    (cap ++
    ("']\n */\n" ++
    (stmtUpdateMany name cap ++
    ("\n\n/**\n * @route PUT /api/v1/" ++
    (name ++
    ("/update-" ++
    (name ++
    ("/:id\n * @description Update " ++
    (name ++
    (" information\n * @param \x7bstring\x7d id - The ID of the " ++
    (name ++
    (" to update\n * @access Public\n * @param \x7bfunction\x7d controller - ['update" ++
    (cap ++
    ("']\n * @param \x7bfunction\x7d validation - ['validate" ++
    (cap ++
    ("Id']\n */\n" ++
    (stmtUpdateOne name cap ++
    ("\n\n\n/**\n * @route DELETE /api/v1/" ++
    (name ++
    ("/delete-" ++
    (name ++
    ("/many\n * @description Delete multiple " ++
    (name ++
    ("s\n * @access Public\n * @param \x7bfunction\x7d controller - ['deleteMany" ++
    (cap ++
    ("']\n */\n" ++
    (stmtDeleteMany name cap ++
    ("\n\n/**\n * @route DELETE /api/v1/" ++
    (name ++
    ("/delete-" ++
    (name ++
    ("/:id\n * @description Delete a " ++
    (name ++
    ("\n * @param \x7bstring\x7d id - The ID of the " ++
    (name ++
    (" to delete\n * @access Public\n * @param \x7bfunction\x7d controller - ['delete" ++
    (cap ++
    ("']\n * @param \x7bfunction\x7d validation - ['validate" ++
    (cap ++
    ("Id']\n */\n" ++
    (stmtDeleteOne name cap ++
    ("\n\n/**\n * @route GET /api/v1/" ++
    (name ++
    ("/get-" ++
    (name ++
    ("/many\n * @description Get multiple " ++
    (name ++
    ("s\n * @access Public\n * @param \x7bfunction\x7d controller - ['getMany" ++
    (cap ++
    ("']\n */\n" ++
    (stmtGetMany name cap ++
    ("\n\n/**\n * @route GET /api/v1/" ++
    (name ++
    ("/get-" ++
    (name ++
    ("/:id\n * @description Get a " ++
    (name ++
    (" by ID\n * @param \x7bstring\x7d id - The ID of the " ++
    (name ++
    (" to retrieve\n * @access Public\n * @param \x7bfunction\x7d controller - ['get" ++
    (cap ++
    ("ById']\n * @param \x7bfunction\x7d validation - ['validate" ++
    (cap ++
    ("Id']\n */\n" ++
    (stmtGetOne name cap ++
    ("\n\n// Export the router\nmodule.exports = router;\n    "))))))))))))))))))))))))))))))))))))))))))))))))))))))))))))))))))))))))))))))))))))))))))))))))))))))))))))))))))

def genBControllerContent (name cap : String) : String :=
  "\nimport \x7b Request, Response \x7d from 'express';\nimport \x7b " ++
    (name ++
    ("Services \x7d from './" ++
    (name ++
    (".service';\nimport ServerResponse from '../../helpers/responses/custom-response';\nimport catchAsync from '../../utils/catch-async/catch-async';\n\n/**\n * Controller function to handle the creation of a single " ++
    (cap ++
    (".\n *\n * @param \x7bRequest\x7d req - The request object containing " ++
    (name ++
    (" data in the body.\n * @param \x7bResponse\x7d res - The response object used to send the response.\n * @returns \x7bvoid\x7d\n */\nexport const create" ++
    (cap ++
    (" = catchAsync(async (req: Request, res: Response) => \x7b\n  // Call the service method to create a new " ++
    (name ++
    (" and get the result\n  const result = await " ++
    (name ++
    ("Services.create" ++
    (cap ++
    ("(req.body);\n  // Send a success response with the created resource data\n  ServerResponse(res, true, 201, '" ++
    (cap ++
    (" created successfully', result);\n\x7d);\n\n/**\n * Controller function to handle the creation of multiple " ++
    (name ++
    ("s.\n *\n * @param \x7bRequest\x7d req - The request object containing an array of " ++
    (name ++
    (" data in the body.\n * @param \x7bResponse\x7d res - The response object used to send the response.\n * @returns \x7bvoid\x7d\n */\nexport const createMany" ++
    (cap ++
    (" = catchAsync(async (req: Request, res: Response) => \x7b\n  // Call the service method to create multiple " ++
    (name ++
    ("s and get the result\n  const result = await " ++
    (name ++
    ("Services.createMany" ++
    (cap ++
    ("(req.body);\n  // Send a success response with the created resources data\n  ServerResponse(res, true, 201, 'Resources created successfully', result);\n\x7d);\n\n/**\n * Controller function to handle the update operation for a single " ++
    (cap ++
    (".\n *\n * @param \x7bRequest\x7d req - The request object containing the ID of the " ++
    (name ++
    (" to update in URL parameters and the updated data in the body.\n * @param \x7bResponse\x7d res - The response object used to send the response.\n * @returns \x7bvoid\x7d\n */\nexport const update" ++
    (cap ++
    (" = catchAsync(async (req: Request, res: Response) => \x7b\n  const \x7b id \x7d = req.params;\n  // Call the service method to update the " ++
    (name ++
    (" by ID and get the result\n  const result = await " ++
    (name ++
    ("Services.update" ++
    (cap ++
    ("(id, req.body);\n  // Send a success response with the updated resource data\n  ServerResponse(res, true, 200, '" ++
    (cap ++
    (" updated successfully', result);\n\x7d);\n\n/**\n * Controller function to handle the update operation for multiple " ++
    (name ++
    ("s.\n *\n * @param \x7bRequest\x7d req - The request object containing an array of " ++
    (name ++
    (" data in the body.\n * @param \x7bResponse\x7d res - The response object used to send the response.\n * @returns \x7bvoid\x7d\n */\nexport const updateMany" ++
    (cap ++
    (" = catchAsync(async (req: Request, res: Response) => \x7b\n  // Call the service method to update multiple " ++
    (name ++
    ("s and get the result\n  const result = await " ++
    (name ++
    ("Services.updateMany" ++
    (cap ++
    ("(req.body);\n  // Send a success response with the updated resources data\n  ServerResponse(res, true, 200, 'Resources updated successfully', result);\n\x7d);\n\n/**\n * Controller function to handle the deletion of a single " ++
    (cap ++
    (".\n *\n * @param \x7bRequest\x7d req - The request object containing the ID of the " ++
    (name ++
    (" to delete in URL parameters.\n * @param \x7bResponse\x7d res - The response object used to send the response.\n * @returns \x7bvoid\x7d\n */\nexport const delete" ++
    (cap ++
    (" = catchAsync(async (req: Request, res: Response) => \x7b\n  const \x7b id \x7d = req.params;\n  // Call the service method to delete the " ++
    (name ++
    (" by ID\n  await " ++
    (name ++
    ("Services.delete" ++
    (cap ++
    ("(id);\n  // Send a success response confirming the deletion\n  ServerResponse(res, true, 200, '" ++
    (cap ++
    (" deleted successfully');\n\x7d);\n\n/**\n * Controller function to handle the deletion of multiple " ++
    (name ++
    ("s.\n *\n * @param \x7bRequest\x7d req - The request object containing an array of IDs of " ++
    (name ++
    ("s to delete in the body.\n * @param \x7bResponse\x7d res - The response object used to send the response.\n * @returns \x7bvoid\x7d\n */\nexport const deleteMany" ++
    (cap ++
    (" = catchAsync(async (req: Request, res: Response) => \x7b\n  // Call the service method to delete multiple " ++
    (name ++
    ("s and get the result\n  await " ++
    (name ++
    ("Services.deleteMany" ++
    (cap ++
    ("(req.body);\n  // Send a success response confirming the deletions\n  ServerResponse(res, true, 200, 'Resources deleted successfully');\n\x7d);\n\n/**\n * Controller function to handle the retrieval of a single " ++
    (cap ++
    (" by ID.\n *\n * @param \x7bRequest\x7d req - The request object containing the ID of the " ++
    (name ++
    (" to retrieve in URL parameters.\n * @param \x7bResponse\x7d res - The response object used to send the response.\n * @returns \x7bvoid\x7d\n */\nexport const get" ++
    (cap ++
    ("ById = catchAsync(async (req: Request, res: Response) => \x7b\n  const \x7b id \x7d = req.params;\n  // Call the service method to get the " ++
    (name ++
    (" by ID and get the result\n  const result = await " ++
    (name ++
    ("Services.get" ++
    (cap ++
    ("ById(id);\n  // Send a success response with the retrieved resource data\n  ServerResponse(res, true, 200, '" ++
    (cap ++
    (" retrieved successfully', result);\n\x7d);\n\n/**\n * Controller function to handle the retrieval of multiple " ++
    (name ++
    ("s.\n *\n * @param \x7bRequest\x7d req - The request object containing query parameters for filtering.\n * @param \x7bResponse\x7d res - The response object used to send the response.\n * @returns \x7bvoid\x7d\n */\nexport const getMany" ++
    (cap ++
    (" = catchAsync(async (req: Request, res: Response) => \x7b\n  // Call the service method to get multiple " ++
    (name ++
    ("s based on query parameters and get the result\n  const result = await " ++
    (name ++
    ("Services.getMany" ++
    (cap ++
    ("(req.query);\n  // Send a success response with the retrieved resources data\n  ServerResponse(res, true, 200, 'Resources retrieved successfully', result);\n\x7d);\n    "))))))))))))))))))))))))))))))))))))))))))))))))))))))))))))))))))))))))))))))))))))))))))))))))))))))))))

def genBModelContent (name cap : String) : String :=
  "\nimport mongoose, \x7b Document, Schema \x7d from 'mongoose';\n\n// Define an interface representing a " ++
    (cap ++
    (" document\ninterface I" ++
    (cap ++
    (" extends Document \x7b\n  // Define the schema fields with their types\n  // Example fields (replace with actual fields)\n  // fieldName: fieldType;\n\x7d\n\n// Define the " ++
    (cap ++
    (" schema\nconst " ++
    (cap ++
    ("Schema: Schema<I" ++
    (cap ++
    ("> = new Schema(\x7b\n  // Define schema fields here\n  // Example fields (replace with actual schema)\n  // fieldName: \x7b\n  //   type: Schema.Types.FieldType,\n  //   required: true,\n  //   trim: true,\n  // \x7d,\n\x7d);\n\n// Create the " ++
    (cap ++
    (" model\nconst " ++
    (cap ++
    (" = mongoose.model<I" ++
    (cap ++
    (">('" ++
    (cap ++
    ("', " ++
    (cap ++
    ("Schema);\n\n// Export the " ++
    (cap ++
    (" model\nexport default " ++
    (cap ++
    (";\n    "))))))))))))))))))))))))

def genBInterfaceContent (name cap : String) : String :=
  "\n/**\n * Type definition for " ++
    (cap ++
    (".\n *\n * This type defines the structure of a single " ++
    (name ++
    (" object.\n * @interface T" ++
    (cap ++
    ("\n */\nexport interface T" ++
    (cap ++
    (" \x7b\n  // Add fields as needed\n\x7d\n    "))))))))

def genBValidationContent (name cap : String) : String :=
  "\nimport \x7b NextFunction, Request, Response \x7d from 'express';\nimport \x7b isMongoId \x7d from 'validator';\nimport \x7b z \x7d from 'zod';\nimport zodErrorHandler from '../../handlers/zod-error-handler';\n\n/**\n * Zod schema for validating " ++
    (name ++
    (" data.\n */\nconst zod" ++
    (cap ++
    ("Schema = z.object(\x7b\n  id: z\n    .string(\x7b\n      required_error: \"Id is required\",\n      invalid_type_error: \"Please provide a valid id\",\n    \x7d)\n    .refine((id: string) => isMongoId(id), \x7b\n      message: \"Please provide a valid id\",\n    \x7d),\n  ids: z\n    .array(z.string().refine((id: string) => isMongoId(id), \x7b\n      message: \"Each ID must be a valid MongoDB ObjectId\",\n    \x7d))\n    .min(1, \x7b\n      message: \"At least one ID must be provided\",\n    \x7d),\n\x7d).strict();\n    \n/**\n * Middleware function to validate " ++
    (name ++
    (" ID using Zod schema.\n * @param \x7bobject\x7d req - The request object.\n * @param \x7bobject\x7d res - The response object.\n * @param \x7bfunction\x7d next - The next middleware function.\n * @returns \x7bvoid\x7d\n */\nexport const validate" ++
    (cap ++
    ("Id = (req: Request, res: Response, next: NextFunction) => \x7b\n  // Validate request params\n  const \x7b error, success \x7d = zod" ++
    (cap ++
    ("Schema.pick(\x7b id: true \x7d).safeParse(\x7b id: req.params.id \x7d);\n\n  // Check if validation was successful\n  if (!success) \x7b\n    // If validation failed, use the Zod error handler to send an error response\n    return zodErrorHandler(req, res, error);\n  \x7d\n\n  // If validation passed, proceed to the next middleware function\n  return next();\n\x7d;\n    "))))))))))

def genBServiceContent (name cap : String) : String :=
  "\n// Import the model\nimport " ++
    (cap ++
    ("Model from './" ++
    (name ++
    (".model'; \n\n/**\n * Service function to create a new " ++
    (name ++
    (".\n *\n * @param data - The data to create a new " ++
    (name ++
    (".\n * @returns \x7bPromise<" ++
    (cap ++
    (">\x7d - The created " ++
    (name ++
    (".\n */\nconst create" ++
    (cap ++
    (" = async (data: object) => \x7b\n  const new" ++
    (cap ++
    (" = new " ++
    (cap ++
    ("Model(data);\n  return await new" ++
    (cap ++
    (".save();\n\x7d;\n\n/**\n * Service function to create multiple " ++
    (name ++
    ("s.\n *\n * @param data - An array of data to create multiple " ++
    (name ++
    ("s.\n * @returns \x7bPromise<" ++
    (cap ++
    ("[]>\x7d - The created " ++
    (name ++
    ("s.\n */\nconst createMany" ++
    (cap ++
    (" = async (data: object[]) => \x7b\n  return await " ++
    (cap ++
    ("Model.insertMany(data);\n\x7d;\n\n/**\n * Service function to update a single " ++
    (name ++
    (" by ID.\n *\n * @param id - The ID of the " ++
    (name ++
    (" to update.\n * @param data - The updated data for the " ++
    (name ++
    (".\n * @returns \x7bPromise<" ++
    (cap ++
    (">\x7d - The updated " ++
    (name ++
    (".\n */\nconst update" ++
    (cap ++
    (" = async (id: string, data: object) => \x7b\n  return await " ++
    (cap ++
    ("Model.findByIdAndUpdate(id, data, \x7b new: true \x7d);\n\x7d;\n\n/**\n * Service function to update multiple " ++
    (name ++
    ("s.\n *\n * @param data - An array of data to update multiple " ++
    (name ++
    ("s.\n * @returns \x7bPromise<" ++
    (cap ++
    ("[]>\x7d - The updated " ++
    (name ++
    ("s.\n */\nconst updateMany" ++
    (cap ++
    (" = async (data: \x7b id: string, updates: object \x7d[]) => \x7b\n  const updatePromises = data.map((\x7b id, updates \x7d) =>\n    " ++
    (cap ++
    ("Model.findByIdAndUpdate(id, updates, \x7b new: true \x7d)\n  );\n  return await Promise.all(updatePromises);\n\x7d;\n\n/**\n * Service function to delete a single " ++
    (name ++
    (" by ID.\n *\n * @param id - The ID of the " ++
    (name ++
    (" to delete.\n * @returns \x7bPromise<" ++
    (cap ++
    (">\x7d - The deleted " ++
    (name ++
    (".\n */\nconst delete" ++
    (cap ++
    (" = async (id: string) => \x7b\n  return await " ++
    (cap ++
    ("Model.findByIdAndDelete(id);\n\x7d;\n\n/**\n * Service function to delete multiple " ++
    (name ++
    ("s.\n *\n * @param ids - An array of IDs of " ++
    (name ++
    ("s to delete.\n * @returns \x7bPromise<" ++
    (cap ++
    ("[]>\x7d - The deleted " ++
    (name ++
    ("s.\n */\nconst deleteMany" ++
    (cap ++
    (" = async (ids: string[]) => \x7b\n  return await " ++
    (cap ++
    ("Model.deleteMany(\x7b _id: \x7b $in: ids \x7d \x7d);\n\x7d;\n\n/**\n * Service function to retrieve a single " ++
    (name ++
    (" by ID.\n *\n * @param id - The ID of the " ++
    (name ++
    (" to retrieve.\n * @returns \x7bPromise<" ++
    (cap ++
    (">\x7d - The retrieved " ++
    (name ++
    (".\n */\nconst get" ++
    (cap ++
    ("ById = async (id: string) => \x7b\n  return await " ++
    (cap ++
    ("Model.findById(id);\n\x7d;\n\n/**\n * Service function to retrieve multiple " ++
    (name ++
    ("s based on query parameters.\n *\n * @param query - The query parameters for filtering " ++
    (name ++
    ("s.\n * @returns \x7bPromise<" ++
    (cap ++
    ("[]>\x7d - The retrieved " ++
    (name ++
    ("s.\n */\nconst getMany" ++
    (cap ++
    (" = async (query: object) => \x7b\n  return await " ++
    (cap ++
    ("Model.find(query);\n\x7d;\n\nexport const " ++
    (name ++
    ("Services = \x7b\n  create" ++
    (cap ++
    (",\n  createMany" ++
    (cap ++
    (",\n  update" ++
    (cap ++
    (",\n  updateMany" ++
    (cap ++
    (",\n  delete" ++
    (cap ++
    (",\n  deleteMany" ++
    (cap ++
    (",\n  get" ++
    (cap ++
    ("ById,\n  getMany" ++
    (cap ++
    (",\n\x7d;\n\n    "))))))))))))))))))))))))))))))))))))))))))))))))))))))))))))))))))))))))))))))))))))))))))))))))))))))))))))))))))))))))))))

def genCRouteContent (segs : List String) (name cap : String) : String :=
  "\n// Import Router from express\nimport \x7b Router \x7d from 'express';\n\n// Import controller from corresponding module\nimport \x7b \n  create" ++
    (cap ++
    (",\n  createMany" ++
    (cap ++
    (",\n  update" ++
    (cap ++
    (",\n  updateMany" ++
    (cap ++
    (",\n  delete" ++
    (cap ++
    (",\n  deleteMany" ++
    (cap ++
    (",\n  get" ++
    (cap ++
    ("ById,\n  getMany" ++
    (cap ++
    ("\n\x7d from '" ++
    (upTraversal segs ++
    ("/modules/" ++
    (joinSep "/" segs ++
    ("/" ++
    (name ++
    ("/" ++
    (name ++
    (".controller';\nimport \x7b validate" ++
    (cap ++
    ("Id \x7d from '" ++
    (upTraversal segs ++
    ("/modules/" ++
    (joinSep "/" segs ++
    ("/" ++
    (name ++
    ("/" ++
    (name ++
    (".validation';\n      \n// Initialize router\nconst router = Router();\n\n// Define route handlers\n/**\n * @route POST /api/v1/" ++
    (joinSep "/" segs ++
    ("/" ++
    (name ++
    ("/create-" ++
    (name ++
    ("\n * @description Create a new " ++
    (name ++
    ("\n * @access Public\n * @param \x7bfunction\x7d controller - ['create" ++
    (cap ++
    ("']\n */\n" ++
    (stmtCreateOne name cap ++
    ("\n\n/**\n * @route POST /api/v1/" ++
    (joinSep "/" segs ++
    ("/" ++
    (name ++
    ("/create-" ++
    (name ++
    ("/many\n * @description Create multiple " ++
    (name ++
    ("s\n * @access Public\n * @param \x7bfunction\x7d controller - ['createMany" ++
    (cap ++
    ("']\n */\n" ++
    (stmtCreateMany name cap ++
    ("\n\n/**\n * @route PUT /api/v1/" ++
    (joinSep "/" segs ++
    ("/" ++
    (name ++
    ("/update-" ++
    (name ++
    ("/many\n * @description Update multiple " ++
    (name ++
    ("s\n * @access Public\n * @param \x7bfunction\x7d controller - ['updateMany" ++
    (cap ++
    ("']\n */\n" ++
    (stmtUpdateMany name cap ++
    ("\n\n/**\n * @route PUT /api/v1/" ++
    (joinSep "/" segs ++
    ("/" ++
    (name ++
    ("/update-" ++
    (name ++
    ("/:id\n * @description Update " ++
    (name ++
    (" information\n * @param \x7bstring\x7d id - The ID of the " ++
    (name ++
    (" to update\n * @access Public\n * @param \x7bfunction\x7d controller - ['update" ++
    (cap ++
    ("']\n * @param \x7bfunction\x7d validation - ['validate" ++
    (cap ++
    ("Id']\n */\n" ++
    (stmtUpdateOne name cap ++
    ("\n\n\n/**\n * @route DELETE /api/v1/" ++
    (joinSep "/" segs ++
    ("/" ++
    (name ++
    ("/delete-" ++
    (name ++
    ("/many\n * @description Delete multiple " ++
    (name ++
    ("s\n * @access Public\n * @param \x7bfunction\x7d controller - ['deleteMany" ++
    (cap ++
    ("']\n */\n" ++
    (stmtDeleteMany name cap ++
    ("\n\n/**\n * @route DELETE /api/v1/" ++
    (joinSep "/" segs ++
    ("/" ++
    (name ++
    ("/delete-" ++
    (name ++
    ("/:id\n * @description Delete a " ++
    (name ++
    ("\n * @param \x7bstring\x7d id - The ID of the " ++
    (name ++
    (" to delete\n * @access Public\n * @param \x7bfunction\x7d controller - ['delete" ++
    (cap ++
    ("']\n * @param \x7bfunction\x7d validation - ['validate" ++
    (cap ++
    ("Id']\n */\n" ++
    (stmtDeleteOne name cap ++
    ("\n\n/**\n * @route GET /api/v1/" ++
    (joinSep "/" segs ++
    ("/" ++
    (name ++
    ("/get-" ++
    (name ++
    ("/many\n * @description Get multiple " ++
    (name ++
    ("s\n * @access Public\n * @param \x7bfunction\x7d controller - ['getMany" ++
    (cap ++
    ("']\n */\n" ++
    (stmtGetMany name cap ++
    ("\n\n/**\n * @route GET /api/v1/" ++
    (joinSep "/" segs ++
    ("/" ++
    (name ++
    ("/get-" ++
    (name ++
    ("/:id\n * @description Get a " ++
    (name ++
    (" by ID\n * @param \x7bstring\x7d id - The ID of the " ++
    (name ++
    (" to retrieve\n * @access Public\n * @param \x7bfunction\x7d controller - ['get" ++
    (cap ++
    ("ById']\n * @param \x7bfunction\x7d validation - ['validate" ++
    (cap ++
    ("Id']\n */\n" ++
    (stmtGetOne name cap ++
    ("\n\n// Export the router\nmodule.exports = router;\n    "))))))))))))))))))))))))))))))))))))))))))))))))))))))))))))))))))))))))))))))))))))))))))))))))))))))))))))))))))))))))))))))))))))))))))))))

def genCControllerContent (segs : List String) (name cap : String) : String :=
  "\nimport \x7b Request, Response \x7d from 'express';\n" ++
    (genCServerResponseImport segs ++
    ("\n\n/**\n * Controller function to handle the create operation for " ++
    (cap ++
    (".\n *\n * @param \x7bobject\x7d req - The request object containing " ++
    (name ++
    (" data in the body.\n * @param \x7bobject\x7d res - The response object used to send the response.\n * @returns \x7bvoid\x7d\n */\nexport const create" ++
    (cap ++
    (" = async (req: Request, res: Response) => \x7b\n  try \x7b\n    // TODO: Add logic to create a new " ++
    (name ++
    ("\n    return ServerResponse(res, true, 201, 'Resource created successfully');\n  \x7d catch (error) \x7b\n    return ServerResponse(res, false, 500, 'Server error');\n  \x7d\n\x7d;\n\n/**\n * Controller function to handle the creation of multiple " ++
    (name ++
    ("s.\n *\n * @param \x7bobject\x7d req - The request object containing an array of " ++
    (name ++
    (" data in the body.\n * @param \x7bobject\x7d res - The response object used to send the response.\n * @returns \x7bvoid\x7d\n */\nexport const createMany" ++
    (cap ++
    (" = async (req: Request, res: Response) => \x7b\n  try \x7b\n    // TODO: Add logic to create multiple " ++
    (name ++
    ("s\n    return ServerResponse(res, true, 201, 'Resources created successfully');\n  \x7d catch (error) \x7b\n    return ServerResponse(res, false, 500, 'Server error');\n  \x7d\n\x7d;\n\n/**\n * Controller function to handle the update operation for a single " ++
    (cap ++
    (".\n *\n * @param \x7bobject\x7d req - The request object containing " ++
    (name ++
    (" data in the body and the ID in URL parameters.\n * @param \x7bobject\x7d res - The response object used to send the response.\n * @returns \x7bvoid\x7d\n */\nexport const update" ++
    (cap ++
    (" = async (req: Request, res: Response) => \x7b\n  try \x7b\n    const \x7b id \x7d = req.params;\n    // TODO: Add logic to update a single " ++
    (name ++
    (" by ID\n    return ServerResponse(res, true, 200, 'Resource updated successfully');\n  \x7d catch (error) \x7b\n    return ServerResponse(res, false, 500, 'Server error');\n  \x7d\n\x7d;\n\n/**\n * Controller function to handle the update operation for multiple " ++
    (name ++
    ("s.\n *\n * @param \x7bobject\x7d req - The request object containing an array of " ++
    (name ++
    (" data in the body.\n * @param \x7bobject\x7d res - The response object used to send the response.\n * @returns \x7bvoid\x7d\n */\nexport const updateMany" ++
    (cap ++
    (" = async (req: Request, res: Response) => \x7b\n  try \x7b\n    // TODO: Add logic to update multiple " ++
    (name ++
    ("s\n    return ServerResponse(res, true, 200, 'Resources updated successfully');\n  \x7d catch (error) \x7b\n    return ServerResponse(res, false, 500, 'Server error');\n  \x7d\n\x7d;\n\n/**\n * Controller function to handle the deletion of a single " ++
    (cap ++
    (".\n *\n * @param \x7bobject\x7d req - The request object containing the ID of the " ++
    (name ++
    (" to delete in URL parameters.\n * @param \x7bobject\x7d res - The response object used to send the response.\n * @returns \x7bvoid\x7d\n */\nexport const delete" ++
    (cap ++
    (" = async (req: Request, res: Response) => \x7b\n  try \x7b\n    const \x7b id \x7d = req.params;\n    // TODO: Add logic to delete a single " ++
    (name ++
    (" by ID\n    return ServerResponse(res, true, 200, 'Resource deleted successfully');\n  \x7d catch (error) \x7b\n    return ServerResponse(res, false, 500, 'Server error');\n  \x7d\n\x7d;\n\n/**\n * Controller function to handle the deletion of multiple " ++
    (name ++
    ("s.\n *\n * @param \x7bobject\x7d req - The request object containing an array of IDs of " ++
    (name ++
    ("s to delete in the body.\n * @param \x7bobject\x7d res - The response object used to send the response.\n * @returns \x7bvoid\x7d\n */\nexport const deleteMany" ++
    (cap ++
    (" = async (req: Request, res: Response) => \x7b\n  try \x7b\n    // TODO: Add logic to delete multiple " ++
    (name ++
    ("s\n    return ServerResponse(res, true, 200, 'Resources deleted successfully');\n  \x7d catch (error) \x7b\n    return ServerResponse(res, false, 500, 'Server error');\n  \x7d\n\x7d;\n\n/**\n * Controller function to handle the retrieval of a single " ++
    (cap ++
    (" by ID.\n *\n * @param \x7bobject\x7d req - The request object containing the ID of the " ++
    (name ++
    (" to retrieve in URL parameters.\n * @param \x7bobject\x7d res - The response object used to send the response.\n * @returns \x7bvoid\x7d\n */\nexport const get" ++
    (cap ++
    ("ById = async (req: Request, res: Response) => \x7b\n  try \x7b\n    const \x7b id \x7d = req.params;\n    // TODO: Add logic to get a single " ++
    (name ++
    (" by ID\n    return ServerResponse(res, true, 200, 'Resource retrieved successfully');\n  \x7d catch (error) \x7b\n    return ServerResponse(res, false, 500, 'Server error');\n  \x7d\n\x7d;\n\n/**\n * Controller function to handle the retrieval of multiple " ++
    (name ++
    ("s.\n *\n * @param \x7bobject\x7d req - The request object containing query parameters for filtering.\n * @param \x7bobject\x7d res - The response object used to send the response.\n * @returns \x7bvoid\x7d\n */\nexport const getMany" ++
    (cap ++
    (" = async (req: Request, res: Response) => \x7b\n  try \x7b\n    // TODO: Add logic to get multiple " ++
    (name ++
    ("s\n    return ServerResponse(res, true, 200, 'Resources retrieved successfully');\n  \x7d catch (error) \x7b\n    return ServerResponse(res, false, 500, 'Server error');\n  \x7d\n\x7d;\n    "))))))))))))))))))))))))))))))))))))))))))))))))))))))))))))))))

def genCModelContent (segs : List String) (name cap : String) : String :=
  "\nimport mongoose, \x7b Document, Schema \x7d from 'mongoose';\n\ninterface I" ++
    (cap ++
    (" extends Document \x7b\n  // Define the schema fields with their types\n\x7d\n\nconst " ++
    (cap ++
    ("Schema: Schema<I" ++
    (cap ++
    ("> = new Schema(\x7b\n  // Define schema fields here\n\x7d);\n\nconst " ++
    (cap ++
    (" = mongoose.model<I" ++
    (cap ++
    (">('" ++
    (cap ++
    ("', " ++
    (cap ++
    ("Schema);\n\nexport default " ++
    (cap ++
    (";\n    "))))))))))))))))

def genCInterfaceContent (segs : List String) (name cap : String) : String :=
  "\nexport interface T" ++
    (cap ++
    (" \x7b\n  // Add fields as needed\n\x7d\n    "))

def genCValidationContent (segs : List String) (name cap : String) : String :=
  "\nimport \x7b NextFunction, Request, Response \x7d from 'express';\nimport \x7b isMongoId \x7d from 'validator';\nimport \x7b z \x7d from 'zod';\n" ++
    (genCZodHandlerImport segs ++
    ("\n\n/**\n * Zod schema for validating " ++
    (name ++
    (" data.\n */\nconst zod" ++
    (cap ++
    ("Schema = z.object(\x7b\n  id: z\n    .string(\x7b\n      required_error: \"Id is required\",\n      invalid_type_error: \"Please provide a valid id\",\n    \x7d)\n    .refine((id: string) => isMongoId(id), \x7b\n      message: \"Please provide a valid id\",\n    \x7d),\n  ids: z\n    .array(z.string().refine((id: string) => isMongoId(id), \x7b\n      message: \"Each ID must be a valid MongoDB ObjectId\",\n    \x7d))\n    .min(1, \x7b\n      message: \"At least one ID must be provided\",\n    \x7d),\n\x7d).strict();\n\n/**\n * Middleware function to validate " ++
    (name ++
    (" ID using Zod schema.\n * @param \x7bobject\x7d req - The request object.\n * @param \x7bobject\x7d res - The response object.\n * @param \x7bfunction\x7d next - The next middleware function.\n * @returns \x7bvoid\x7d\n */\nexport const validate" ++
    (cap ++
    ("Id = (req: Request, res: Response, next: NextFunction) => \x7b\n  // Validate request params\n  const \x7b error, success \x7d = zod" ++
    (cap ++
    ("Schema.pick(\x7b id: true \x7d).safeParse(\x7b id: req.params.id \x7d);\n\n  // Check if validation was successful\n  if (!success) \x7b\n    // If validation failed, use the Zod error handler to send an error response\n    return zodErrorHandler(req, res, error);\n  \x7d\n\n  // If validation passed, proceed to the next middleware function\n  return next();\n\x7d;\n    "))))))))))))

def genDRouteContent (segs : List String) (name cap : String) : String :=
  "\n// Import Router from express\nimport \x7b Router \x7d from 'express';\n\n// Import controller from corresponding module\nimport \x7b \n  create" ++
    (cap ++
    (",\n  createMany" ++
    (cap ++
    (",\n  update" ++
    (cap ++
    (",\n  updateMany" ++
    (cap ++
    (",\n  delete" ++
    (cap ++
    (",\n  deleteMany" ++
    (cap ++
    (",\n  get" ++
    (cap ++
    ("ById,\n  getMany" ++
    (cap ++
    ("\n\x7d from './" ++
    (name ++
    (".controller';\n\n//Import validation from corresponding module\nimport \x7b validate" ++
    (cap ++
    ("Id \x7d from './" ++
    (name ++
    (".validation';\n      \n// Initialize router\nconst router = Router();\n\n// Define route handlers\n/**\n * @route POST /api/v1/" ++
    (joinSep "/" segs ++
    ("/" ++
    (name ++
    ("/create-" ++
    (name ++
    ("\n * @description Create a new " ++
    (name ++
    ("\n * @access Public\n * @param \x7bfunction\x7d controller - ['create" ++
    (cap ++
    ("']\n */\n" ++
    (stmtCreateOne name cap ++
    ("\n\n/**\n * @route POST /api/v1/" ++
    (joinSep "/" segs ++
    ("/" ++
    (name ++
    ("/create-" ++
    (name ++
    ("/many\n * @description Create multiple " ++
    (name ++
    ("s\n * @access Public\n * @param \x7bfunction\x7d controller - ['createMany" ++
    (cap ++
    ("']\n */\n" ++
    (stmtCreateMany name cap ++
    ("\n\n/**\n * @route PUT /api/v1/" ++
    (joinSep "/" segs ++
    ("/" ++
    (name ++
    ("/update-" ++
    (name ++
    ("/many\n * @description Update multiple " ++
    (name ++
    ("s\n * @access Public\n * @param \x7bfunction\x7d controller - ['updateMany" ++
    (cap ++
    ("']\n */\n" ++
    (stmtUpdateMany name cap ++
    ("\n\n/**\n * @route PUT /api/v1/" ++
    (joinSep "/" segs ++
    ("/" ++
    (name ++
    ("/update-" ++
    (name ++
    ("/:id\n * @description Update " ++
    (name ++
    (" information\n * @param \x7bstring\x7d id - The ID of the " ++
    (name ++
    (" to update\n * @access Public\n * @param \x7bfunction\x7d controller - ['update" ++
    (cap ++
    ("']\n * @param \x7bfunction\x7d validation - ['validate" ++
    (cap ++
    ("Id']\n */\n" ++
    (stmtUpdateOne name cap ++
    ("\n\n\n/**\n * @route DELETE /api/v1/" ++
    (joinSep "/" segs ++
    ("/" ++
    (name ++
    ("/delete-" ++
    (name ++
    ("/many\n * @description Delete multiple " ++
    (name ++
    ("s\n * @access Public\n * @param \x7bfunction\x7d controller - ['deleteMany" ++
    (cap ++
    ("']\n */\n" ++
    (stmtDeleteMany name cap ++
    ("\n\n/**\n * @route DELETE /api/v1/" ++
    (joinSep "/" segs ++
    ("/" ++
    (name ++
    ("/delete-" ++
    (name ++
    ("/:id\n * @description Delete a " ++
    (name ++
    ("\n * @param \x7bstring\x7d id - The ID of the " ++
    (name ++
    (" to delete\n * @access Public\n * @param \x7bfunction\x7d controller - ['delete" ++
    (cap ++
    ("']\n * @param \x7bfunction\x7d validation - ['validate" ++
    (cap ++
    ("Id']\n */\n" ++
    (stmtDeleteOne name cap ++
    ("\n\n/**\n * @route GET /api/v1/" ++
    (joinSep "/" segs ++
    ("/" ++
    (name ++
    ("/get-" ++
    (name ++
    ("/many\n * @description Get multiple " ++
    (name ++
    ("s\n * @access Public\n * @param \x7bfunction\x7d controller - ['getMany" ++
    (cap ++
    ("']\n */\n" ++
    (stmtGetMany name cap ++
    ("\n\n/**\n * @route GET /api/v1/" ++
    (joinSep "/" segs ++
    ("/" ++
    (name ++
    ("/get-" ++
    (name ++
    ("/:id\n * @description Get a " ++
    (name ++
    (" by ID\n * @param \x7bstring\x7d id - The ID of the " ++
    (name ++
    (" to retrieve\n * @access Public\n * @param \x7bfunction\x7d controller - ['get" ++
    (cap ++
    ("ById']\n * @param \x7bfunction\x7d validation - ['validate" ++
    (cap ++
    ("Id']\n */\n" ++
    (stmtGetOne name cap ++
    ("\n\n// Export the router\nmodule.exports = router;\n    "))))))))))))))))))))))))))))))))))))))))))))))))))))))))))))))))))))))))))))))))))))))))))))))))))))))))))))))))))))))))))))))))))

def genDControllerContent (segs : List String) (name cap : String) : String :=
  "\nimport \x7b Request, Response \x7d from 'express';\nimport \x7b " ++
    (name ++
    ("Services \x7d from './" ++
    (name ++
    (".service';\n" ++
    (genDServerResponseImport segs ++
    ("\nimport catchAsync from '" ++
    (upTraversal segs ++
    ("/utils/catch-async/catch-async';\n\n/**\n * Controller function to handle the creation of a single " ++
    (cap ++
    (".\n *\n * @param \x7bRequest\x7d req - The request object containing " ++
    (name ++
    (" data in the body.\n * @param \x7bResponse\x7d res - The response object used to send the response.\n * @returns \x7bvoid\x7d\n */\nexport const create" ++
    (cap ++
    (" = catchAsync(async (req: Request, res: Response) => \x7b\n  // Call the service method to create a new " ++
    (name ++
    (" and get the result\n  const result = await " ++
    (name ++
    ("Services.create" ++
    (cap ++
    ("(req.body);\n  // Send a success response with the created resource data\n  ServerResponse(res, true, 201, '" ++
    (cap ++
    (" created successfully', result);\n\x7d);\n\n/**\n * Controller function to handle the creation of multiple " ++
    (name ++
    ("s.\n *\n * @param \x7bRequest\x7d req - The request object containing an array of " ++
    (name ++
    (" data in the body.\n * @param \x7bResponse\x7d res - The response object used to send the response.\n * @returns \x7bvoid\x7d\n */\nexport const createMany" ++
    (cap ++
    (" = catchAsync(async (req: Request, res: Response) => \x7b\n  // Call the service method to create multiple " ++
    (name ++
    ("s and get the result\n  const result = await " ++
    (name ++
    ("Services.createMany" ++
    (cap ++
    ("(req.body);\n  // Send a success response with the created resources data\n  ServerResponse(res, true, 201, 'Resources created successfully', result);\n\x7d);\n\n/**\n * Controller function to handle the update operation for a single " ++
    (cap ++
    (".\n *\n * @param \x7bRequest\x7d req - The request object containing the ID of the " ++
    (name ++
    (" to update in URL parameters and the updated data in the body.\n * @param \x7bResponse\x7d res - The response object used to send the response.\n * @returns \x7bvoid\x7d\n */\nexport const update" ++
    (cap ++
    (" = catchAsync(async (req: Request, res: Response) => \x7b\n  const \x7b id \x7d = req.params;\n  // Call the service method to update the " ++
    (name ++
    (" by ID and get the result\n  const result = await " ++
    (name ++
    ("Services.update" ++
    (cap ++
    ("(id, req.body);\n  // Send a success response with the updated resource data\n  ServerResponse(res, true, 200, '" ++
    (cap ++
    (" updated successfully', result);\n\x7d);\n\n/**\n * Controller function to handle the update operation for multiple " ++
    (name ++
    ("s.\n *\n * @param \x7bRequest\x7d req - The request object containing an array of " ++
    (name ++
    (" data in the body.\n * @param \x7bResponse\x7d res - The response object used to send the response.\n * @returns \x7bvoid\x7d\n */\nexport const updateMany" ++
    (cap ++
    (" = catchAsync(async (req: Request, res: Response) => \x7b\n  // Call the service method to update multiple " ++
    (name ++
    ("s and get the result\n  const result = await " ++
    (name ++
    ("Services.updateMany" ++
    (cap ++
    ("(req.body);\n  // Send a success response with the updated resources data\n  ServerResponse(res, true, 200, 'Resources updated successfully', result);\n\x7d);\n\n/**\n * Controller function to handle the deletion of a single " ++
    (cap ++
    (".\n *\n * @param \x7bRequest\x7d req - The request object containing the ID of the " ++
    (name ++
    (" to delete in URL parameters.\n * @param \x7bResponse\x7d res - The response object used to send the response.\n * @returns \x7bvoid\x7d\n */\nexport const delete" ++
    (cap ++
    (" = catchAsync(async (req: Request, res: Response) => \x7b\n  const \x7b id \x7d = req.params;\n  // Call the service method to delete the " ++
    (name ++
    (" by ID\n  await " ++
    (name ++
    ("Services.delete" ++
    (cap ++
    ("(id);\n  // Send a success response confirming the deletion\n  ServerResponse(res, true, 200, '" ++
    (cap ++
    (" deleted successfully');\n\x7d);\n\n/**\n * Controller function to handle the deletion of multiple " ++
    (name ++
    ("s.\n *\n * @param \x7bRequest\x7d req - The request object containing an array of IDs of " ++
    (name ++
    ("s to delete in the body.\n * @param \x7bResponse\x7d res - The response object used to send the response.\n * @returns \x7bvoid\x7d\n */\nexport const deleteMany" ++
    (cap ++
    (" = catchAsync(async (req: Request, res: Response) => \x7b\n  // Call the service method to delete multiple " ++
    (name ++
    ("s and get the result\n  await " ++
    (name ++
    ("Services.deleteMany" ++
    (cap ++
    ("(req.body);\n  // Send a success response confirming the deletions\n  ServerResponse(res, true, 200, 'Resources deleted successfully');\n\x7d);\n\n/**\n * Controller function to handle the retrieval of a single " ++
    (cap ++
    (" by ID.\n *\n * @param \x7bRequest\x7d req - The request object containing the ID of the " ++
    (name ++
    (" to retrieve in URL parameters.\n * @param \x7bResponse\x7d res - The response object used to send the response.\n * @returns \x7bvoid\x7d\n */\nexport const get" ++
    (cap ++
    ("ById = catchAsync(async (req: Request, res: Response) => \x7b\n  const \x7b id \x7d = req.params;\n  // Call the service method to get the " ++
    (name ++
    (" by ID and get the result\n  const result = await " ++
    (name ++
    ("Services.get" ++
    (cap ++
    ("ById(id);\n  // Send a success response with the retrieved resource data\n  ServerResponse(res, true, 200, '" ++
    (cap ++
    (" retrieved successfully', result);\n\x7d);\n\n/**\n * Controller function to handle the retrieval of multiple " ++
    (name ++
    ("s.\n *\n * @param \x7bRequest\x7d req - The request object containing query parameters for filtering.\n * @param \x7bResponse\x7d res - The response object used to send the response.\n * @returns \x7bvoid\x7d\n */\nexport const getMany" ++
    (cap ++
    (" = catchAsync(async (req: Request, res: Response) => \x7b\n  // Call the service method to get multiple " ++
    (name ++
    ("s based on query parameters and get the result\n  const result = await " ++
    (name ++
    ("Services.getMany" ++
    (cap ++
    ("(req.query);\n  // Send a success response with the retrieved resources data\n  ServerResponse(res, true, 200, 'Resources retrieved successfully', result);\n\x7d);\n    "))))))))))))))))))))))))))))))))))))))))))))))))))))))))))))))))))))))))))))))))))))))))))))))))))))))))))))))

def genDModelContent (segs : List String) (name cap : String) : String :=
  "\nimport mongoose, \x7b Document, Schema \x7d from 'mongoose';\n\ninterface I" ++
    (cap ++
    (" extends Document \x7b\n  // Define the schema fields with their types\n\x7d\n\nconst " ++
    (cap ++
    ("Schema: Schema<I" ++
    (cap ++
    ("> = new Schema(\x7b\n  // Define schema fields here\n\x7d);\n\nconst " ++
    (cap ++
    (" = mongoose.model<I" ++
    (cap ++
    (">('" ++
    (cap ++
    ("', " ++
    (cap ++
    ("Schema);\n\nexport default " ++
    (cap ++
    (";\n    "))))))))))))))))

def genDInterfaceContent (segs : List String) (name cap : String) : String :=
  "\nexport interface T" ++
    (cap ++
    (" \x7b\n  // Add fields as needed\n\x7d\n    "))

def genDValidationContent (segs : List String) (name cap : String) : String :=
  "\nimport \x7b NextFunction, Request, Response \x7d from 'express';\nimport \x7b isMongoId \x7d from 'validator';\nimport \x7b z \x7d from 'zod';\n" ++
    (genDZodHandlerImport segs ++
    ("\n\n/**\n * Zod schema for validating " ++
    (name ++
    (" data.\n */\nconst zod" ++
    (cap ++
    ("Schema = z.object(\x7b\n  id: z\n    .string(\x7b\n      required_error: \"Id is required\",\n      invalid_type_error: \"Please provide a valid id\",\n    \x7d)\n    .refine((id: string) => isMongoId(id), \x7b\n      message: \"Please provide a valid id\",\n    \x7d),\n  ids: z\n    .array(z.string().refine((id: string) => isMongoId(id), \x7b\n      message: \"Each ID must be a valid MongoDB ObjectId\",\n    \x7d))\n    .min(1, \x7b\n      message: \"At least one ID must be provided\",\n    \x7d),\n\x7d).strict();\n\n/**\n * Middleware function to validate " ++
    (name ++
    (" ID using Zod schema.\n * @param \x7bobject\x7d req - The request object.\n * @param \x7bobject\x7d res - The response object.\n * @param \x7bfunction\x7d next - The next middleware function.\n * @returns \x7bvoid\x7d\n */\nexport const validate" ++
    (cap ++
    ("Id = (req: Request, res: Response, next: NextFunction) => \x7b\n  // Validate request params\n  const \x7b error, success \x7d = zod" ++
    (cap ++
    ("Schema.pick(\x7b id: true \x7d).safeParse(\x7b id: req.params.id \x7d);\n\n  // Check if validation was successful\n  if (!success) \x7b\n    // If validation failed, use the Zod error handler to send an error response\n    return zodErrorHandler(req, res, error);\n  \x7d\n\n  // If validation passed, proceed to the next middleware function\n  return next();\n\x7d;\n    "))))))))))))

def genDServiceContent (segs : List String) (name cap : String) : String :=
  "\n// Import the model\nimport " ++
    (cap ++
    ("Model from './" ++
    (name ++
    (".model'; \n\n/**\n * Service function to create a new " ++
    (name ++
    (".\n *\n * @param data - The data to create a new " ++
    (name ++
    (".\n * @returns \x7bPromise<" ++
    (cap ++
    (">\x7d - The created " ++
    (name ++
    (".\n */\nconst create" ++
    (cap ++
    (" = async (data: object) => \x7b\n  const new" ++
    (cap ++
    (" = new " ++
    (cap ++
    ("Model(data);\n  return await new" ++
    (cap ++
    (".save();\n\x7d;\n\n/**\n * Service function to create multiple " ++
    (name ++
    ("s.\n *\n * @param data - An array of data to create multiple " ++
    (name ++
    ("s.\n * @returns \x7bPromise<" ++
    (cap ++
    ("[]>\x7d - The created " ++
    (name ++
    ("s.\n */\nconst createMany" ++
    (cap ++
    (" = async (data: object[]) => \x7b\n  return await " ++
    (cap ++
    ("Model.insertMany(data);\n\x7d;\n\n/**\n * Service function to update a single " ++
    (name ++
    (" by ID.\n *\n * @param id - The ID of the " ++
    (name ++
    (" to update.\n * @param data - The updated data for the " ++
    (name ++
    (".\n * @returns \x7bPromise<" ++
    (cap ++
    (">\x7d - The updated " ++
    (name ++
    (".\n */\nconst update" ++
    (cap ++
    (" = async (id: string, data: object) => \x7b\n  return await " ++
    (cap ++
    ("Model.findByIdAndUpdate(id, data, \x7b new: true \x7d);\n\x7d;\n\n/**\n * Service function to update multiple " ++
    (name ++
    ("s.\n *\n * @param data - An array of data to update multiple " ++
    (name ++
    ("s.\n * @returns \x7bPromise<" ++
    (cap ++
    ("[]>\x7d - The updated " ++
    (name ++
    ("s.\n */\nconst updateMany" ++
    (cap ++
    (" = async (data: \x7b id: string, updates: object \x7d[]) => \x7b\n  const updatePromises = data.map((\x7b id, updates \x7d) =>\n    " ++
    (cap ++
    ("Model.findByIdAndUpdate(id, updates, \x7b new: true \x7d)\n  );\n  return await Promise.all(updatePromises);\n\x7d;\n\n/**\n * Service function to delete a single " ++
    (name ++
    (" by ID.\n *\n * @param id - The ID of the " ++
    (name ++
    (" to delete.\n * @returns \x7bPromise<" ++
    (cap ++
    (">\x7d - The deleted " ++
    (name ++
    (".\n */\nconst delete" ++
    (cap ++
    (" = async (id: string) => \x7b\n  return await " ++
    (cap ++
    ("Model.findByIdAndDelete(id);\n\x7d;\n\n/**\n * Service function to delete multiple " ++
    (name ++
    ("s.\n *\n * @param ids - An array of IDs of " ++
    (name ++
    ("s to delete.\n * @returns \x7bPromise<" ++
    (cap ++
    ("[]>\x7d - The deleted " ++
    (name ++
    ("s.\n */\nconst deleteMany" ++
    (cap ++
    (" = async (ids: string[]) => \x7b\n  return await " ++
    (cap ++
    ("Model.deleteMany(\x7b _id: \x7b $in: ids \x7d \x7d);\n\x7d;\n\n/**\n * Service function to retrieve a single " ++
    (name ++
    (" by ID.\n *\n * @param id - The ID of the " ++
    (name ++
    (" to retrieve.\n * @returns \x7bPromise<" ++
    (cap ++
    (">\x7d - The retrieved " ++
    (name ++
    (".\n */\nconst get" ++
    (cap ++
    ("ById = async (id: string) => \x7b\n  return await " ++
    (cap ++
    ("Model.findById(id);\n\x7d;\n\n/**\n * Service function to retrieve multiple " ++
    (name ++
    ("s based on query parameters.\n *\n * @param query - The query parameters for filtering " ++
    (name ++
    ("s.\n * @returns \x7bPromise<" ++
    (cap ++
    ("[]>\x7d - The retrieved " ++
    (name ++
    ("s.\n */\nconst getMany" ++
    (cap ++
    (" = async (query: object) => \x7b\n  return await " ++
    (cap ++
    ("Model.find(query);\n\x7d;\n\nexport const " ++
    (name ++
    ("Services = \x7b\n  create" ++
    (cap ++
    (",\n  createMany" ++
    (cap ++
    (",\n  update" ++
    (cap ++
    (",\n  updateMany" ++
    (cap ++
    (",\n  delete" ++
    (cap ++
    (",\n  deleteMany" ++
    (cap ++
    (",\n  get" ++
    (cap ++
    ("ById,\n  getMany" ++
    (cap ++
    (",\n\x7d;\n\n    "))))))))))))))))))))))))))))))))))))))))))))))))))))))))))))))))))))))))))))))))))))))))))))))))))))))))))))))))))))))))))))

/-- The kinds of generated artifacts. -/
inductive ArtifactKind where
  | route
  | controller
  | model
  | interface
  | validation
  | service
  deriving DecidableEq

/-- One `fs.writeFileSync(path, content)` call of a generator, in call
order. -/
structure WriteOp where
  kind : ArtifactKind
  path : String
  content : String
  deriving DecidableEq

/-- One `CREATE <path> (<N> bytes)` report line of a generator, in print
order. -/
structure ReportEntry where
  kind : ArtifactKind
  path : String
  bytes : Nat
  deriving DecidableEq

/-- genA (first script of src/unnamed/part_000): the directories it creates
(`routes/<name>` and `modules/<name>` under `src`). -/
def genADirs (input : String) : List String :=
  let name := jsToLower input
  [pathJoin ["src", "routes", name], pathJoin ["src", "modules", name]]

/-- genA: the files it writes, in write order (route, controller, model,
interface, validation), each with the trimmed template content. -/
def genAWrites (input : String) : List WriteOp :=
  let name := jsToLower input
  let cap := jsCapitalize name
  let routeDir := pathJoin ["src", "routes", name]
  let moduleDir := pathJoin ["src", "modules", name]
  [⟨.route, pathJoin [routeDir, "index.ts"], jsTrim (genARouteContent name cap)⟩,
   ⟨.controller, pathJoin [moduleDir, name ++ ".controller.ts"],
     jsTrim (genAControllerContent name cap)⟩,
   ⟨.model, pathJoin [moduleDir, name ++ ".model.ts"], jsTrim (genAModelContent name cap)⟩,
   ⟨.interface, pathJoin [moduleDir, name ++ ".interface.ts"],
     jsTrim (genAInterfaceContent name cap)⟩,
   ⟨.validation, pathJoin [moduleDir, name ++ ".validation.ts"],
     jsTrim (genAValidationContent name cap)⟩]

/-- genA: the report lines, in print order (route, controller, interface,
model, validation), each carrying `Buffer.byteLength` of the untrimmed
template. -/
def genAReport (input : String) : List ReportEntry :=
  let name := jsToLower input
  let cap := jsCapitalize name
  let routeDir := pathJoin ["src", "routes", name]
  let moduleDir := pathJoin ["src", "modules", name]
  [⟨.route, pathJoin [routeDir, "index.ts"], utf8Bytes (genARouteContent name cap)⟩,
   ⟨.controller, pathJoin [moduleDir, name ++ ".controller.ts"],
     utf8Bytes (genAControllerContent name cap)⟩,
   ⟨.interface, pathJoin [moduleDir, name ++ ".interface.ts"],
     utf8Bytes (genAInterfaceContent name cap)⟩,
   ⟨.model, pathJoin [moduleDir, name ++ ".model.ts"], utf8Bytes (genAModelContent name cap)⟩,
   ⟨.validation, pathJoin [moduleDir, name ++ ".validation.ts"],
     utf8Bytes (genAValidationContent name cap)⟩]

/-- genB (second script of src/unnamed/part_000): the single colocated
directory it creates. -/
def genBDirs (input : String) : List String :=
  let name := jsToLower input
  [pathJoin ["src", "modules", name]]

/-- genB: the files it writes, in write order (route, controller, model,
interface, validation, service). -/
def genBWrites (input : String) : List WriteOp :=
  let name := jsToLower input
  let cap := jsCapitalize name
  let moduleDir := pathJoin ["src", "modules", name]
  [⟨.route, pathJoin [moduleDir, name ++ ".route.ts"], jsTrim (genBRouteContent name cap)⟩,
   ⟨.controller, pathJoin [moduleDir, name ++ ".controller.ts"],
     jsTrim (genBControllerContent name cap)⟩,
   ⟨.model, pathJoin [moduleDir, name ++ ".model.ts"], jsTrim (genBModelContent name cap)⟩,
   ⟨.interface, pathJoin [moduleDir, name ++ ".interface.ts"],
     jsTrim (genBInterfaceContent name cap)⟩,
   ⟨.validation, pathJoin [moduleDir, name ++ ".validation.ts"],
     jsTrim (genBValidationContent name cap)⟩,
   ⟨.service, pathJoin [moduleDir, name ++ ".service.ts"],
     jsTrim (genBServiceContent name cap)⟩]

/-- genB: the report lines, in print order (controller, interface, model,
route, service, validation). -/
def genBReport (input : String) : List ReportEntry :=
  let name := jsToLower input
  let cap := jsCapitalize name
  let moduleDir := pathJoin ["src", "modules", name]
  [⟨.controller, pathJoin [moduleDir, name ++ ".controller.ts"],
     utf8Bytes (genBControllerContent name cap)⟩,
   ⟨.interface, pathJoin [moduleDir, name ++ ".interface.ts"],
     utf8Bytes (genBInterfaceContent name cap)⟩,
   ⟨.model, pathJoin [moduleDir, name ++ ".model.ts"], utf8Bytes (genBModelContent name cap)⟩,
   ⟨.route, pathJoin [moduleDir, name ++ ".route.ts"], utf8Bytes (genBRouteContent name cap)⟩,
   ⟨.service, pathJoin [moduleDir, name ++ ".service.ts"],
     utf8Bytes (genBServiceContent name cap)⟩,
   ⟨.validation, pathJoin [moduleDir, name ++ ".validation.ts"],
     utf8Bytes (genBValidationContent name cap)⟩]

/-- genC (src/.bin/nested-resource-cli.js): the two nested directories it
creates. -/
def genCDirs (input : String) : List String :=
  let name := resourceNameOf input
  let segs := foldersOf input
  [pathJoin ("src" :: "routes" :: (segs ++ [name])),
   pathJoin ("src" :: "modules" :: (segs ++ [name]))]

/-- genC: the files it writes, in write order (route, controller, model,
interface, validation). -/
def genCWrites (input : String) : List WriteOp :=
  let name := resourceNameOf input
  let segs := foldersOf input
  let cap := jsCapitalize name
  let routeDir := pathJoin ("src" :: "routes" :: (segs ++ [name]))
  let moduleDir := pathJoin ("src" :: "modules" :: (segs ++ [name]))
  [⟨.route, pathJoin [routeDir, "index.ts"], jsTrim (genCRouteContent segs name cap)⟩,
   ⟨.controller, pathJoin [moduleDir, name ++ ".controller.ts"],
     jsTrim (genCControllerContent segs name cap)⟩,
   ⟨.model, pathJoin [moduleDir, name ++ ".model.ts"],
     jsTrim (genCModelContent segs name cap)⟩,
   ⟨.interface, pathJoin [moduleDir, name ++ ".interface.ts"],
     jsTrim (genCInterfaceContent segs name cap)⟩,
   ⟨.validation, pathJoin [moduleDir, name ++ ".validation.ts"],
     jsTrim (genCValidationContent segs name cap)⟩]

/-- genC: the report lines, in print order (route, controller, interface,
model, validation). -/
def genCReport (input : String) : List ReportEntry :=
  let name := resourceNameOf input
  let segs := foldersOf input
  let cap := jsCapitalize name
  let routeDir := pathJoin ("src" :: "routes" :: (segs ++ [name]))
  let moduleDir := pathJoin ("src" :: "modules" :: (segs ++ [name]))
  [⟨.route, pathJoin [routeDir, "index.ts"], utf8Bytes (genCRouteContent segs name cap)⟩,
   ⟨.controller, pathJoin [moduleDir, name ++ ".controller.ts"],
     utf8Bytes (genCControllerContent segs name cap)⟩,
   ⟨.interface, pathJoin [moduleDir, name ++ ".interface.ts"],
     utf8Bytes (genCInterfaceContent segs name cap)⟩,
   ⟨.model, pathJoin [moduleDir, name ++ ".model.ts"],
     utf8Bytes (genCModelContent segs name cap)⟩,
   ⟨.validation, pathJoin [moduleDir, name ++ ".validation.ts"],
     utf8Bytes (genCValidationContent segs name cap)⟩]

/-- genD (src/unnamed/part_001): the single nested colocated directory. -/
def genDDirs (input : String) : List String :=
  let name := resourceNameOf input
  let segs := foldersOf input
  [pathJoin ("src" :: "modules" :: (segs ++ [name]))]

/-- genD: the files it writes, in write order (route, controller, model,
interface, validation, service). -/
def genDWrites (input : String) : List WriteOp :=
  let name := resourceNameOf input
  let segs := foldersOf input
  let cap := jsCapitalize name
  let moduleDir := pathJoin ("src" :: "modules" :: (segs ++ [name]))
  [⟨.route, pathJoin [moduleDir, name ++ ".route.ts"],
     jsTrim (genDRouteContent segs name cap)⟩,
   ⟨.controller, pathJoin [moduleDir, name ++ ".controller.ts"],
     jsTrim (genDControllerContent segs name cap)⟩,
   ⟨.model, pathJoin [moduleDir, name ++ ".model.ts"],
     jsTrim (genDModelContent segs name cap)⟩,
   ⟨.interface, pathJoin [moduleDir, name ++ ".interface.ts"],
     jsTrim (genDInterfaceContent segs name cap)⟩,
   ⟨.validation, pathJoin [moduleDir, name ++ ".validation.ts"],
     jsTrim (genDValidationContent segs name cap)⟩,
   ⟨.service, pathJoin [moduleDir, name ++ ".service.ts"],
     jsTrim (genDServiceContent segs name cap)⟩]

/-- genD: the report lines, in print order (controller, interface, model,
route, service, validation). -/
def genDReport (input : String) : List ReportEntry :=
  let name := resourceNameOf input
  let segs := foldersOf input
  let cap := jsCapitalize name
  let moduleDir := pathJoin ("src" :: "modules" :: (segs ++ [name]))
  [⟨.controller, pathJoin [moduleDir, name ++ ".controller.ts"],
     utf8Bytes (genDControllerContent segs name cap)⟩,
   ⟨.interface, pathJoin [moduleDir, name ++ ".interface.ts"],
     utf8Bytes (genDInterfaceContent segs name cap)⟩,
   ⟨.model, pathJoin [moduleDir, name ++ ".model.ts"],
     utf8Bytes (genDModelContent segs name cap)⟩,
   ⟨.route, pathJoin [moduleDir, name ++ ".route.ts"],
     utf8Bytes (genDRouteContent segs name cap)⟩,
   ⟨.service, pathJoin [moduleDir, name ++ ".service.ts"],
     utf8Bytes (genDServiceContent segs name cap)⟩,
   ⟨.validation, pathJoin [moduleDir, name ++ ".validation.ts"],
     utf8Bytes (genDValidationContent segs name cap)⟩]

/-- The four concrete generator scripts.  In the spec's LayoutMode terms:
`splitFlat` and `splitNested` are SplitRouteModule (flat and nested input),
`colocatedFlatService` and `colocatedNestedService` are ColocatedWithService. -/
inductive GenVariant where
  | splitFlat
  | colocatedFlatService
  | splitNested
  | colocatedNestedService
  deriving DecidableEq

/-- The template-rendering function: which template text each (generator,
artifact kind) pair produces (`none` when the generator has no such
artifact — the split generators emit no service file). -/
def render (g : GenVariant) (k : ArtifactKind) (segs : List String) (name cap : String) :
    Option String :=
  match g, k with
  | .splitFlat, .route => some (genARouteContent name cap)
  | .splitFlat, .controller => some (genAControllerContent name cap)
  | .splitFlat, .model => some (genAModelContent name cap)
  | .splitFlat, .interface => some (genAInterfaceContent name cap)
  | .splitFlat, .validation => some (genAValidationContent name cap)
  | .splitFlat, .service => none
  | .colocatedFlatService, .route => some (genBRouteContent name cap)
  | .colocatedFlatService, .controller => some (genBControllerContent name cap)
  | .colocatedFlatService, .model => some (genBModelContent name cap)
  | .colocatedFlatService, .interface => some (genBInterfaceContent name cap)
  | .colocatedFlatService, .validation => some (genBValidationContent name cap)
  | .colocatedFlatService, .service => some (genBServiceContent name cap)
  | .splitNested, .route => some (genCRouteContent segs name cap)
  | .splitNested, .controller => some (genCControllerContent segs name cap)
  | .splitNested, .model => some (genCModelContent segs name cap)
  | .splitNested, .interface => some (genCInterfaceContent segs name cap)
  | .splitNested, .validation => some (genCValidationContent segs name cap)
  | .splitNested, .service => none
  | .colocatedNestedService, .route => some (genDRouteContent segs name cap)
  | .colocatedNestedService, .controller => some (genDControllerContent segs name cap)
  | .colocatedNestedService, .model => some (genDModelContent segs name cap)
  | .colocatedNestedService, .interface => some (genDInterfaceContent segs name cap)
  | .colocatedNestedService, .validation => some (genDValidationContent segs name cap)
  | .colocatedNestedService, .service => some (genDServiceContent segs name cap)

/-- Filesystem state: the directories that exist and the files (path,
content), in creation order. -/
structure FsState where
  dirs : List String
  files : List (String × String)
  deriving DecidableEq

/-- Node `fs.existsSync(dir)` restricted to directories. -/
def existsSyncDir (fs : FsState) (d : String) : Bool := fs.dirs.contains d

/-- Node `fs.mkdirSync(dir, { recursive: true })` (parent entries elided:
nothing in the model reads them). -/
def mkdirSyncRec (fs : FsState) (d : String) : FsState := ⟨d :: fs.dirs, fs.files⟩

/-- The scripts' guarded directory creation:
`if (!fs.existsSync(dir)) fs.mkdirSync(dir, { recursive: true })`. -/
def ensureDir (fs : FsState) (d : String) : FsState :=
  if existsSyncDir fs d then fs else mkdirSyncRec fs d

/-- Replace the binding of `p` (or append it): the effect of
`fs.writeFileSync` on the file map. -/
def setFile : List (String × String) → String → String → List (String × String)
  | [], p, c => [(p, c)]
  | (q, d) :: rest, p, c =>
    if q = p then (p, c) :: rest else (q, d) :: setFile rest p c

/-- Node `fs.writeFileSync(p, c)`: unconditionally (over)writes the whole
file. -/
def writeFileSync (fs : FsState) (p c : String) : FsState :=
  ⟨fs.dirs, setFile fs.files p c⟩

/-- Read back a file from the state. -/
def readFileState (fs : FsState) (p : String) : Option String :=
  fs.files.lookup p

/-- Raw (untrimmed) genA template contents, in write order. -/
def genARawContents (input : String) : List String :=
  let name := jsToLower input
  let cap := jsCapitalize name
  [genARouteContent name cap, genAControllerContent name cap, genAModelContent name cap,
   genAInterfaceContent name cap, genAValidationContent name cap]

/-- Raw (untrimmed) genB template contents, in write order. -/
def genBRawContents (input : String) : List String :=
  let name := jsToLower input
  let cap := jsCapitalize name
  [genBRouteContent name cap, genBControllerContent name cap, genBModelContent name cap,
   genBInterfaceContent name cap, genBValidationContent name cap, genBServiceContent name cap]

/-- Raw (untrimmed) genC template contents, in write order. -/
def genCRawContents (input : String) : List String :=
  let name := resourceNameOf input
  let segs := foldersOf input
  let cap := jsCapitalize name
  [genCRouteContent segs name cap, genCControllerContent segs name cap,
   genCModelContent segs name cap, genCInterfaceContent segs name cap,
   genCValidationContent segs name cap]

/-- Raw (untrimmed) genD template contents, in write order. -/
def genDRawContents (input : String) : List String :=
  let name := resourceNameOf input
  let segs := foldersOf input
  let cap := jsCapitalize name
  [genDRouteContent segs name cap, genDControllerContent segs name cap,
   genDModelContent segs name cap, genDInterfaceContent segs name cap,
   genDValidationContent segs name cap, genDServiceContent segs name cap]

/-- Raw genC template contents tagged by kind, in write order. -/
def genCRawsWriteOrder (input : String) : List (ArtifactKind × String) :=
  let name := resourceNameOf input
  let segs := foldersOf input
  let cap := jsCapitalize name
  [(.route, genCRouteContent segs name cap), (.controller, genCControllerContent segs name cap),
   (.model, genCModelContent segs name cap), (.interface, genCInterfaceContent segs name cap),
   (.validation, genCValidationContent segs name cap)]

/-- Raw genC template contents tagged by kind, in report (print) order. -/
def genCRawsReportOrder (input : String) : List (ArtifactKind × String) :=
  let name := resourceNameOf input
  let segs := foldersOf input
  let cap := jsCapitalize name
  [(.route, genCRouteContent segs name cap), (.controller, genCControllerContent segs name cap),
   (.interface, genCInterfaceContent segs name cap), (.model, genCModelContent segs name cap),
   (.validation, genCValidationContent segs name cap)]

/-- The eight route registration statements in the order the templates emit
them: create-one, create-many, update-many, update-one, delete-many,
delete-one, get-many, get-one. -/
def routeStmts (name cap : String) : List String :=
  [stmtCreateOne name cap, stmtCreateMany name cap, stmtUpdateMany name cap,
   stmtUpdateOne name cap, stmtDeleteMany name cap, stmtDeleteOne name cap,
   stmtGetMany name cap, stmtGetOne name cap]

/-- Whether a character list starts with a newline followed by a
non-whitespace character (the shape of every template literal's head). -/
def startsOk : List Char → Bool
  | x :: c :: _ => x == '\n' && !isJsWs c
  | _ => false

/-- What `content.trim()` guarantees for a rendered template: the written
string differs from the raw render (which begins with a newline), is
non-empty, and neither begins nor ends with whitespace. -/
def TrimGood (raw : String) : Prop :=
  jsTrim raw ≠ raw ∧ jsTrim raw ≠ "" ∧
  (∀ c, (jsTrim raw).data.head? = some c → isJsWs c = false) ∧
  (∀ c, (jsTrim raw).data.getLast? = some c → isJsWs c = false) ∧
  raw.data.head? = some '\n'

theorem dropWhile_append_nil {α : Type _} {p : α → Bool} {a : List α} (b : List α)
    (h : a.dropWhile p = []) : (a ++ b).dropWhile p = b.dropWhile p := by
  induction a with
  | nil => rfl
  | cons x xs ih =>
    rw [List.dropWhile_cons] at h
    rw [List.cons_append, List.dropWhile_cons]
    split at h
    · rw [if_pos (by assumption)]
      exact ih h
    · exact absurd h (by simp)

theorem dropWhile_append_cons {α : Type _} {p : α → Bool} {a : List α} (b : List α)
    {d : α} {ds : List α} (h : a.dropWhile p = d :: ds) :
    (a ++ b).dropWhile p = d :: (ds ++ b) := by
  induction a with
  | nil => simp [List.dropWhile] at h
  | cons x xs ih =>
    rw [List.dropWhile_cons] at h
    rw [List.cons_append, List.dropWhile_cons]
    split at h
    · rw [if_pos (by assumption)]
      exact ih h
    · rw [if_neg (by assumption)]
      rw [List.cons.injEq] at h
      rw [h.1, ← h.2]

theorem dropWhile_head_false {α : Type _} {p : α → Bool} :
    ∀ {l : List α} {c : α}, ((l.dropWhile p).head? = some c) → p c = false := by
  intro l
  induction l with
  | nil => intro c h; simp [List.dropWhile] at h
  | cons x xs ih =>
    intro c h
    rw [List.dropWhile_cons] at h
    split at h
    · exact ih h
    · next hx =>
      rw [List.head?_cons, Option.some.injEq] at h
      subst h
      cases hpx : p x
      · rfl
      · exact absurd hpx hx

theorem trimR_cons {c : Char} (hc : isJsWs c = false) (l : List Char) :
    trimR (c :: l) = c :: trimR l := by
  unfold trimR
  rw [List.reverse_cons]
  cases h : l.reverse.dropWhile isJsWs with
  | nil =>
    rw [dropWhile_append_nil _ h]
    simp [List.dropWhile_cons, hc]
  | cons d ds =>
    rw [dropWhile_append_cons _ h]
    simp

theorem trimR_last_false : ∀ {l : List Char} {c : Char},
    ((trimR l).getLast? = some c) → isJsWs c = false := by
  intro l c h
  unfold trimR at h
  rw [List.getLast?_reverse] at h
  exact dropWhile_head_false h

theorem trimR_bytes_le (l : List Char) :
    ((trimR l).map csize).sum ≤ (l.map csize).sum := by
  unfold trimR
  have h1 : ∀ (m : List Char), ((m.dropWhile isJsWs).map csize).sum ≤ (m.map csize).sum := by
    intro m
    induction m with
    | nil => exact Nat.le_refl _
    | cons x xs ih =>
      rw [List.dropWhile_cons]
      split
      · exact Nat.le_trans ih (Nat.le_add_left _ _)
      · exact Nat.le_refl _
  calc (((l.reverse.dropWhile isJsWs).reverse).map csize).sum
      = ((l.reverse.dropWhile isJsWs).map csize).sum := by
        rw [List.map_reverse, List.sum_reverse]
    _ ≤ ((l.reverse).map csize).sum := h1 l.reverse
    _ = (l.map csize).sum := by rw [List.map_reverse, List.sum_reverse]

/-- Master lemma for `content.trim()`: a string whose head is a newline
followed by a non-whitespace character trims to a string with clean edges,
and trimming strictly shrinks its UTF-8 byte length.  Every template of the
four generators has that head shape, whatever is appended after it. -/
theorem trim_concat_facts (a rest : String) (h : startsOk a.data = true) :
    TrimGood (a ++ rest) ∧ utf8Bytes (jsTrim (a ++ rest)) < utf8Bytes (a ++ rest) := by
  obtain ⟨la⟩ := a
  cases la with
  | nil => simp [startsOk] at h
  | cons x t =>
  cases t with
  | nil => simp [startsOk] at h
  | cons c tt =>
    have hx : x = '\n' := by
      have hh := h
      unfold startsOk at hh
      simp only [Bool.and_eq_true, beq_iff_eq] at hh
      exact hh.1
    have hc : isJsWs c = false := by
      have hh := h
      unfold startsOk at hh
      simp only [Bool.and_eq_true, Bool.not_eq_true'] at hh
      exact hh.2
    subst hx
    have key1 : ((String.mk ('\n' :: c :: tt)) ++ rest).data = '\n' :: c :: (tt ++ rest.data) := by
      rw [String.data_append]
      rfl
    have keyL : trimL ('\n' :: c :: (tt ++ rest.data)) = c :: (tt ++ rest.data) := by
      unfold trimL
      rw [List.dropWhile_cons, if_pos (by decide), List.dropWhile_cons, if_neg (by simp [hc])]
    have hjt : jsTrim ((String.mk ('\n' :: c :: tt)) ++ rest) =
        ⟨c :: trimR (tt ++ rest.data)⟩ := by
      unfold jsTrim
      rw [key1, keyL, trimR_cons hc]
    refine ⟨⟨?_, ?_, ?_, ?_, ?_⟩, ?_⟩
    · intro heq
      rw [hjt] at heq
      have hd := congrArg String.data heq
      rw [key1] at hd
      have : c = '\n' := (List.cons.inj hd).1
      rw [this] at hc
      exact absurd hc (by decide)
    · intro heq
      rw [hjt] at heq
      have hd := congrArg String.data heq
      exact List.cons_ne_nil _ _ hd
    · intro c' hc'
      rw [hjt] at hc'
      rw [show (String.mk (c :: trimR (tt ++ rest.data))).data.head? = some c from rfl,
        Option.some.injEq] at hc'
      rw [← hc']
      exact hc
    · intro c' hl
      rw [hjt] at hl
      have hl' : (c :: trimR (tt ++ rest.data)).getLast? = some c' := hl
      cases hM : trimR (tt ++ rest.data) with
      | nil =>
        rw [hM] at hl'
        rw [show ([c] : List Char).getLast? = some c from rfl, Option.some.injEq] at hl'
        rw [← hl']
        exact hc
      | cons y ys =>
        rw [hM, List.getLast?_cons_cons] at hl'
        exact trimR_last_false (hM ▸ hl' : (trimR (tt ++ rest.data)).getLast? = some c')
    · rw [key1]
      rfl
    · rw [hjt]
      have hbytes : utf8Bytes ((String.mk ('\n' :: c :: tt)) ++ rest) =
          1 + csize c + ((tt ++ rest.data).map csize).sum := by
        unfold utf8Bytes
        rw [key1]
        simp [List.map_cons, List.sum_cons]
        have : csize '\n' = 1 := by decide
        omega
      have htb : utf8Bytes (⟨c :: trimR (tt ++ rest.data)⟩ : String) =
          csize c + ((trimR (tt ++ rest.data)).map csize).sum := by
        unfold utf8Bytes
        simp [List.map_cons, List.sum_cons]
      have hle := trimR_bytes_le (tt ++ rest.data)
      rw [hbytes, htb]
      omega

theorem trimGood_concat (a rest : String) (h : startsOk a.data = true) :
    TrimGood (a ++ rest) :=
  (trim_concat_facts a rest h).1

theorem trimBytesLt (a rest : String) (h : startsOk a.data = true) :
    utf8Bytes (jsTrim (a ++ rest)) < utf8Bytes (a ++ rest) :=
  (trim_concat_facts a rest h).2

/-- The genA route template contains the eight registration statements in
template order. -/
theorem cio_genARoute (name cap : String) :
    OrderedOcc (genARouteContent name cap) (routeStmts name cap) :=
  OrderedOcc.skip _ _ _ (OrderedOcc.skip _ _ _ (OrderedOcc.skip _ _ _ (OrderedOcc.skip _ _ _ (OrderedOcc.skip _ _ _ (OrderedOcc.skip _ _ _ (OrderedOcc.skip _ _ _ (OrderedOcc.skip _ _ _ (OrderedOcc.skip _ _ _ (OrderedOcc.skip _ _ _ (OrderedOcc.skip _ _ _ (OrderedOcc.skip _ _ _ (OrderedOcc.skip _ _ _ (OrderedOcc.skip _ _ _ (OrderedOcc.skip _ _ _ (OrderedOcc.skip _ _ _ (OrderedOcc.skip _ _ _ (OrderedOcc.skip _ _ _ (OrderedOcc.skip _ _ _ (OrderedOcc.skip _ _ _ (OrderedOcc.skip _ _ _ (OrderedOcc.skip _ _ _ (OrderedOcc.skip _ _ _ (OrderedOcc.skip _ _ _ (OrderedOcc.skip _ _ _ (OrderedOcc.skip _ _ _ (OrderedOcc.skip _ _ _ (OrderedOcc.skip _ _ _ (OrderedOcc.skip _ _ _ (OrderedOcc.skip _ _ _ (OrderedOcc.skip _ _ _ (OrderedOcc.skip _ _ _ (OrderedOcc.skip _ _ _ (OrderedOcc.skip _ _ _ (OrderedOcc.skip _ _ _ (OrderedOcc.found _ _ _ (OrderedOcc.skip _ _ _ (OrderedOcc.skip _ _ _ (OrderedOcc.skip _ _ _ (OrderedOcc.skip _ _ _ (OrderedOcc.skip _ _ _ (OrderedOcc.skip _ _ _ (OrderedOcc.skip _ _ _ (OrderedOcc.skip _ _ _ (OrderedOcc.skip _ _ _ (OrderedOcc.found _ _ _ (OrderedOcc.skip _ _ _ (OrderedOcc.skip _ _ _ (OrderedOcc.skip _ _ _ (OrderedOcc.skip _ _ _ (OrderedOcc.skip _ _ _ (OrderedOcc.skip _ _ _ (OrderedOcc.skip _ _ _ (OrderedOcc.skip _ _ _ (OrderedOcc.skip _ _ _ (OrderedOcc.found _ _ _ (OrderedOcc.skip _ _ _ (OrderedOcc.skip _ _ _ (OrderedOcc.skip _ _ _ (OrderedOcc.skip _ _ _ (OrderedOcc.skip _ _ _ (OrderedOcc.skip _ _ _ (OrderedOcc.skip _ _ _ (OrderedOcc.skip _ _ _ (OrderedOcc.skip _ _ _ (OrderedOcc.skip _ _ _ (OrderedOcc.skip _ _ _ (OrderedOcc.skip _ _ _ (OrderedOcc.skip _ _ _ (OrderedOcc.found _ _ _ (OrderedOcc.skip _ _ _ (OrderedOcc.skip _ _ _ (OrderedOcc.skip _ _ _ (OrderedOcc.skip _ _ _ (OrderedOcc.skip _ _ _ (OrderedOcc.skip _ _ _ (OrderedOcc.skip _ _ _ (OrderedOcc.skip _ _ _ (OrderedOcc.skip _ _ _ (OrderedOcc.found _ _ _ (OrderedOcc.skip _ _ _ (OrderedOcc.skip _ _ _ (OrderedOcc.skip _ _ _ (OrderedOcc.skip _ _ _ (OrderedOcc.skip _ _ _ (OrderedOcc.skip _ _ _ (OrderedOcc.skip _ _ _ (OrderedOcc.skip _ _ _ (OrderedOcc.skip _ _ _ (OrderedOcc.skip _ _ _ (OrderedOcc.skip _ _ _ (OrderedOcc.skip _ _ _ (OrderedOcc.skip _ _ _ (OrderedOcc.found _ _ _ (OrderedOcc.skip _ _ _ (OrderedOcc.skip _ _ _ (OrderedOcc.skip _ _ _ (OrderedOcc.skip _ _ _ (OrderedOcc.skip _ _ _ (OrderedOcc.skip _ _ _ (OrderedOcc.skip _ _ _ (OrderedOcc.skip _ _ _ (OrderedOcc.skip _ _ _ (OrderedOcc.found _ _ _ (OrderedOcc.skip _ _ _ (OrderedOcc.skip _ _ _ (OrderedOcc.skip _ _ _ (OrderedOcc.skip _ _ _ (OrderedOcc.skip _ _ _ (OrderedOcc.skip _ _ _ (OrderedOcc.skip _ _ _ (OrderedOcc.skip _ _ _ (OrderedOcc.skip _ _ _ (OrderedOcc.skip _ _ _ (OrderedOcc.skip _ _ _ (OrderedOcc.skip _ _ _ (OrderedOcc.skip _ _ _ (OrderedOcc.found _ _ _ (OrderedOcc.nil _))))))))))))))))))))))))))))))))))))))))))))))))))))))))))))))))))))))))))))))))))))))))))))))))))))))))))))))))))))))

/-- The genB route template contains the eight registration statements in
template order. -/
theorem cio_genBRoute (name cap : String) :
    OrderedOcc (genBRouteContent name cap) (routeStmts name cap) :=
  OrderedOcc.skip _ _ _ (OrderedOcc.skip _ _ _ (OrderedOcc.skip _ _ _ (OrderedOcc.skip _ _ _ (OrderedOcc.skip _ _ _ (OrderedOcc.skip _ _ _ (OrderedOcc.skip _ _ _ (OrderedOcc.skip _ _ _ (OrderedOcc.skip _ _ _ (OrderedOcc.skip _ _ _ (OrderedOcc.skip _ _ _ (OrderedOcc.skip _ _ _ (OrderedOcc.skip _ _ _ (OrderedOcc.skip _ _ _ (OrderedOcc.skip _ _ _ (OrderedOcc.skip _ _ _ (OrderedOcc.skip _ _ _ (OrderedOcc.skip _ _ _ (OrderedOcc.skip _ _ _ (OrderedOcc.skip _ _ _ (OrderedOcc.skip _ _ _ (OrderedOcc.skip _ _ _ (OrderedOcc.skip _ _ _ (OrderedOcc.skip _ _ _ (OrderedOcc.skip _ _ _ (OrderedOcc.skip _ _ _ (OrderedOcc.skip _ _ _ (OrderedOcc.skip _ _ _ (OrderedOcc.skip _ _ _ (OrderedOcc.skip _ _ _ (OrderedOcc.skip _ _ _ (OrderedOcc.found _ _ _ (OrderedOcc.skip _ _ _ (OrderedOcc.skip _ _ _ (OrderedOcc.skip _ _ _ (OrderedOcc.skip _ _ _ (OrderedOcc.skip _ _ _ (OrderedOcc.skip _ _ _ (OrderedOcc.skip _ _ _ (OrderedOcc.skip _ _ _ (OrderedOcc.skip _ _ _ (OrderedOcc.found _ _ _ (OrderedOcc.skip _ _ _ (OrderedOcc.skip _ _ _ (OrderedOcc.skip _ _ _ (OrderedOcc.skip _ _ _ (OrderedOcc.skip _ _ _ (OrderedOcc.skip _ _ _ (OrderedOcc.skip _ _ _ (OrderedOcc.skip _ _ _ (OrderedOcc.skip _ _ _ (OrderedOcc.found _ _ _ (OrderedOcc.skip _ _ _ (OrderedOcc.skip _ _ _ (OrderedOcc.skip _ _ _ (OrderedOcc.skip _ _ _ (OrderedOcc.skip _ _ _ (OrderedOcc.skip _ _ _ (OrderedOcc.skip _ _ _ (OrderedOcc.skip _ _ _ (OrderedOcc.skip _ _ _ (OrderedOcc.skip _ _ _ (OrderedOcc.skip _ _ _ (OrderedOcc.skip _ _ _ (OrderedOcc.skip _ _ _ (OrderedOcc.found _ _ _ (OrderedOcc.skip _ _ _ (OrderedOcc.skip _ _ _ (OrderedOcc.skip _ _ _ (OrderedOcc.skip _ _ _ (OrderedOcc.skip _ _ _ (OrderedOcc.skip _ _ _ (OrderedOcc.skip _ _ _ (OrderedOcc.skip _ _ _ (OrderedOcc.skip _ _ _ (OrderedOcc.found _ _ _ (OrderedOcc.skip _ _ _ (OrderedOcc.skip _ _ _ (OrderedOcc.skip _ _ _ (OrderedOcc.skip _ _ _ (OrderedOcc.skip _ _ _ (OrderedOcc.skip _ _ _ (OrderedOcc.skip _ _ _ (OrderedOcc.skip _ _ _ (OrderedOcc.skip _ _ _ (OrderedOcc.skip _ _ _ (OrderedOcc.skip _ _ _ (OrderedOcc.skip _ _ _ (OrderedOcc.skip _ _ _ (OrderedOcc.found _ _ _ (OrderedOcc.skip _ _ _ (OrderedOcc.skip _ _ _ (OrderedOcc.skip _ _ _ (OrderedOcc.skip _ _ _ (OrderedOcc.skip _ _ _ (OrderedOcc.skip _ _ _ (OrderedOcc.skip _ _ _ (OrderedOcc.skip _ _ _ (OrderedOcc.skip _ _ _ (OrderedOcc.found _ _ _ (OrderedOcc.skip _ _ _ (OrderedOcc.skip _ _ _ (OrderedOcc.skip _ _ _ (OrderedOcc.skip _ _ _ (OrderedOcc.skip _ _ _ (OrderedOcc.skip _ _ _ (OrderedOcc.skip _ _ _ (OrderedOcc.skip _ _ _ (OrderedOcc.skip _ _ _ (OrderedOcc.skip _ _ _ (OrderedOcc.skip _ _ _ (OrderedOcc.skip _ _ _ (OrderedOcc.skip _ _ _ (OrderedOcc.found _ _ _ (OrderedOcc.nil _))))))))))))))))))))))))))))))))))))))))))))))))))))))))))))))))))))))))))))))))))))))))))))))))))))))))))))))))))

/-- The genC route template contains the eight registration statements in
template order. -/
theorem cio_genCRoute (segs : List String) (name cap : String) :
    OrderedOcc (genCRouteContent segs name cap) (routeStmts name cap) :=
  OrderedOcc.skip _ _ _ (OrderedOcc.skip _ _ _ (OrderedOcc.skip _ _ _ (OrderedOcc.skip _ _ _ (OrderedOcc.skip _ _ _ (OrderedOcc.skip _ _ _ (OrderedOcc.skip _ _ _ (OrderedOcc.skip _ _ _ (OrderedOcc.skip _ _ _ (OrderedOcc.skip _ _ _ (OrderedOcc.skip _ _ _ (OrderedOcc.skip _ _ _ (OrderedOcc.skip _ _ _ (OrderedOcc.skip _ _ _ (OrderedOcc.skip _ _ _ (OrderedOcc.skip _ _ _ (OrderedOcc.skip _ _ _ (OrderedOcc.skip _ _ _ (OrderedOcc.skip _ _ _ (OrderedOcc.skip _ _ _ (OrderedOcc.skip _ _ _ (OrderedOcc.skip _ _ _ (OrderedOcc.skip _ _ _ (OrderedOcc.skip _ _ _ (OrderedOcc.skip _ _ _ (OrderedOcc.skip _ _ _ (OrderedOcc.skip _ _ _ (OrderedOcc.skip _ _ _ (OrderedOcc.skip _ _ _ (OrderedOcc.skip _ _ _ (OrderedOcc.skip _ _ _ (OrderedOcc.skip _ _ _ (OrderedOcc.skip _ _ _ (OrderedOcc.skip _ _ _ (OrderedOcc.skip _ _ _ (OrderedOcc.skip _ _ _ (OrderedOcc.skip _ _ _ (OrderedOcc.skip _ _ _ (OrderedOcc.skip _ _ _ (OrderedOcc.skip _ _ _ (OrderedOcc.skip _ _ _ (OrderedOcc.skip _ _ _ (OrderedOcc.skip _ _ _ (OrderedOcc.skip _ _ _ (OrderedOcc.skip _ _ _ (OrderedOcc.found _ _ _ (OrderedOcc.skip _ _ _ (OrderedOcc.skip _ _ _ (OrderedOcc.skip _ _ _ (OrderedOcc.skip _ _ _ (OrderedOcc.skip _ _ _ (OrderedOcc.skip _ _ _ (OrderedOcc.skip _ _ _ (OrderedOcc.skip _ _ _ (OrderedOcc.skip _ _ _ (OrderedOcc.skip _ _ _ (OrderedOcc.skip _ _ _ (OrderedOcc.found _ _ _ (OrderedOcc.skip _ _ _ (OrderedOcc.skip _ _ _ (OrderedOcc.skip _ _ _ (OrderedOcc.skip _ _ _ (OrderedOcc.skip _ _ _ (OrderedOcc.skip _ _ _ (OrderedOcc.skip _ _ _ (OrderedOcc.skip _ _ _ (OrderedOcc.skip _ _ _ (OrderedOcc.skip _ _ _ (OrderedOcc.skip _ _ _ (OrderedOcc.found _ _ _ (OrderedOcc.skip _ _ _ (OrderedOcc.skip _ _ _ (OrderedOcc.skip _ _ _ (OrderedOcc.skip _ _ _ (OrderedOcc.skip _ _ _ (OrderedOcc.skip _ _ _ (OrderedOcc.skip _ _ _ (OrderedOcc.skip _ _ _ (OrderedOcc.skip _ _ _ (OrderedOcc.skip _ _ _ (OrderedOcc.skip _ _ _ (OrderedOcc.skip _ _ _ (OrderedOcc.skip _ _ _ (OrderedOcc.skip _ _ _ (OrderedOcc.skip _ _ _ (OrderedOcc.found _ _ _ (OrderedOcc.skip _ _ _ (OrderedOcc.skip _ _ _ (OrderedOcc.skip _ _ _ (OrderedOcc.skip _ _ _ (OrderedOcc.skip _ _ _ (OrderedOcc.skip _ _ _ (OrderedOcc.skip _ _ _ (OrderedOcc.skip _ _ _ (OrderedOcc.skip _ _ _ (OrderedOcc.skip _ _ _ (OrderedOcc.skip _ _ _ (OrderedOcc.found _ _ _ (OrderedOcc.skip _ _ _ (OrderedOcc.skip _ _ _ (OrderedOcc.skip _ _ _ (OrderedOcc.skip _ _ _ (OrderedOcc.skip _ _ _ (OrderedOcc.skip _ _ _ (OrderedOcc.skip _ _ _ (OrderedOcc.skip _ _ _ (OrderedOcc.skip _ _ _ (OrderedOcc.skip _ _ _ (OrderedOcc.skip _ _ _ (OrderedOcc.skip _ _ _ (OrderedOcc.skip _ _ _ (OrderedOcc.skip _ _ _ (OrderedOcc.skip _ _ _ (OrderedOcc.found _ _ _ (OrderedOcc.skip _ _ _ (OrderedOcc.skip _ _ _ (OrderedOcc.skip _ _ _ (OrderedOcc.skip _ _ _ (OrderedOcc.skip _ _ _ (OrderedOcc.skip _ _ _ (OrderedOcc.skip _ _ _ (OrderedOcc.skip _ _ _ (OrderedOcc.skip _ _ _ (OrderedOcc.skip _ _ _ (OrderedOcc.skip _ _ _ (OrderedOcc.found _ _ _ (OrderedOcc.skip _ _ _ (OrderedOcc.skip _ _ _ (OrderedOcc.skip _ _ _ (OrderedOcc.skip _ _ _ (OrderedOcc.skip _ _ _ (OrderedOcc.skip _ _ _ (OrderedOcc.skip _ _ _ (OrderedOcc.skip _ _ _ (OrderedOcc.skip _ _ _ (OrderedOcc.skip _ _ _ (OrderedOcc.skip _ _ _ (OrderedOcc.skip _ _ _ (OrderedOcc.skip _ _ _ (OrderedOcc.skip _ _ _ (OrderedOcc.skip _ _ _ (OrderedOcc.found _ _ _ (OrderedOcc.nil _))))))))))))))))))))))))))))))))))))))))))))))))))))))))))))))))))))))))))))))))))))))))))))))))))))))))))))))))))))))))))))))))))))))))))))))

/-- The genD route template contains the eight registration statements in
template order. -/
theorem cio_genDRoute (segs : List String) (name cap : String) :
    OrderedOcc (genDRouteContent segs name cap) (routeStmts name cap) :=
  OrderedOcc.skip _ _ _ (OrderedOcc.skip _ _ _ (OrderedOcc.skip _ _ _ (OrderedOcc.skip _ _ _ (OrderedOcc.skip _ _ _ (OrderedOcc.skip _ _ _ (OrderedOcc.skip _ _ _ (OrderedOcc.skip _ _ _ (OrderedOcc.skip _ _ _ (OrderedOcc.skip _ _ _ (OrderedOcc.skip _ _ _ (OrderedOcc.skip _ _ _ (OrderedOcc.skip _ _ _ (OrderedOcc.skip _ _ _ (OrderedOcc.skip _ _ _ (OrderedOcc.skip _ _ _ (OrderedOcc.skip _ _ _ (OrderedOcc.skip _ _ _ (OrderedOcc.skip _ _ _ (OrderedOcc.skip _ _ _ (OrderedOcc.skip _ _ _ (OrderedOcc.skip _ _ _ (OrderedOcc.skip _ _ _ (OrderedOcc.skip _ _ _ (OrderedOcc.skip _ _ _ (OrderedOcc.skip _ _ _ (OrderedOcc.skip _ _ _ (OrderedOcc.skip _ _ _ (OrderedOcc.skip _ _ _ (OrderedOcc.skip _ _ _ (OrderedOcc.skip _ _ _ (OrderedOcc.skip _ _ _ (OrderedOcc.skip _ _ _ (OrderedOcc.found _ _ _ (OrderedOcc.skip _ _ _ (OrderedOcc.skip _ _ _ (OrderedOcc.skip _ _ _ (OrderedOcc.skip _ _ _ (OrderedOcc.skip _ _ _ (OrderedOcc.skip _ _ _ (OrderedOcc.skip _ _ _ (OrderedOcc.skip _ _ _ (OrderedOcc.skip _ _ _ (OrderedOcc.skip _ _ _ (OrderedOcc.skip _ _ _ (OrderedOcc.found _ _ _ (OrderedOcc.skip _ _ _ (OrderedOcc.skip _ _ _ (OrderedOcc.skip _ _ _ (OrderedOcc.skip _ _ _ (OrderedOcc.skip _ _ _ (OrderedOcc.skip _ _ _ (OrderedOcc.skip _ _ _ (OrderedOcc.skip _ _ _ (OrderedOcc.skip _ _ _ (OrderedOcc.skip _ _ _ (OrderedOcc.skip _ _ _ (OrderedOcc.found _ _ _ (OrderedOcc.skip _ _ _ (OrderedOcc.skip _ _ _ (OrderedOcc.skip _ _ _ (OrderedOcc.skip _ _ _ (OrderedOcc.skip _ _ _ (OrderedOcc.skip _ _ _ (OrderedOcc.skip _ _ _ (OrderedOcc.skip _ _ _ (OrderedOcc.skip _ _ _ (OrderedOcc.skip _ _ _ (OrderedOcc.skip _ _ _ (OrderedOcc.skip _ _ _ (OrderedOcc.skip _ _ _ (OrderedOcc.skip _ _ _ (OrderedOcc.skip _ _ _ (OrderedOcc.found _ _ _ (OrderedOcc.skip _ _ _ (OrderedOcc.skip _ _ _ (OrderedOcc.skip _ _ _ (OrderedOcc.skip _ _ _ (OrderedOcc.skip _ _ _ (OrderedOcc.skip _ _ _ (OrderedOcc.skip _ _ _ (OrderedOcc.skip _ _ _ (OrderedOcc.skip _ _ _ (OrderedOcc.skip _ _ _ (OrderedOcc.skip _ _ _ (OrderedOcc.found _ _ _ (OrderedOcc.skip _ _ _ (OrderedOcc.skip _ _ _ (OrderedOcc.skip _ _ _ (OrderedOcc.skip _ _ _ (OrderedOcc.skip _ _ _ (OrderedOcc.skip _ _ _ (OrderedOcc.skip _ _ _ (OrderedOcc.skip _ _ _ (OrderedOcc.skip _ _ _ (OrderedOcc.skip _ _ _ (OrderedOcc.skip _ _ _ (OrderedOcc.skip _ _ _ (OrderedOcc.skip _ _ _ (OrderedOcc.skip _ _ _ (OrderedOcc.skip _ _ _ (OrderedOcc.found _ _ _ (OrderedOcc.skip _ _ _ (OrderedOcc.skip _ _ _ (OrderedOcc.skip _ _ _ (OrderedOcc.skip _ _ _ (OrderedOcc.skip _ _ _ (OrderedOcc.skip _ _ _ (OrderedOcc.skip _ _ _ (OrderedOcc.skip _ _ _ (OrderedOcc.skip _ _ _ (OrderedOcc.skip _ _ _ (OrderedOcc.skip _ _ _ (OrderedOcc.found _ _ _ (OrderedOcc.skip _ _ _ (OrderedOcc.skip _ _ _ (OrderedOcc.skip _ _ _ (OrderedOcc.skip _ _ _ (OrderedOcc.skip _ _ _ (OrderedOcc.skip _ _ _ (OrderedOcc.skip _ _ _ (OrderedOcc.skip _ _ _ (OrderedOcc.skip _ _ _ (OrderedOcc.skip _ _ _ (OrderedOcc.skip _ _ _ (OrderedOcc.skip _ _ _ (OrderedOcc.skip _ _ _ (OrderedOcc.skip _ _ _ (OrderedOcc.skip _ _ _ (OrderedOcc.found _ _ _ (OrderedOcc.nil _))))))))))))))))))))))))))))))))))))))))))))))))))))))))))))))))))))))))))))))))))))))))))))))))))))))))))))))))))))))))))))))))))

/-- Pure list fact used for C4: swapping the third and fourth entries is a
permutation (the split generators' report order vs write order). -/
theorem perm_swap_mid5 {α : Type _} (r c i m v : α) :
    List.Perm [r, c, i, m, v] [r, c, m, i, v] :=
  ((List.Perm.swap m i [v]).cons c).cons r

/-- Pure list fact used for C4: the colocated generators' report order
(controller, interface, model, route, service, validation) is a permutation
of their write order (route, controller, model, interface, validation,
service). -/
theorem perm_report_write6 {α : Type _} (c i m r s v : α) :
    List.Perm [c, i, m, r, s, v] [r, c, m, i, v, s] := by
  have h1 : List.Perm [c, i, m, r, s, v] (r :: [c, i, m, s, v]) :=
    @List.perm_middle α r [c, i, m] [s, v]
  have h2 : List.Perm [i, m, s, v] [m, i, s, v] := List.Perm.swap m i [s, v]
  have h3 : List.Perm [s, v] [v, s] := List.Perm.swap v s []
  have h4 : List.Perm [m, i, s, v] [m, i, v, s] := (h3.cons i).cons m
  exact h1.trans (((h2.trans h4).cons c).cons r)

/-- Creating a directory that the state already has is a no-op. -/
theorem ensureDir_of_exists (fs : FsState) (d : String)
    (h : existsSyncDir fs d = true) : ensureDir fs d = fs := by
  unfold ensureDir
  rw [if_pos h]

/-- After `ensureDir` the directory exists. -/
theorem existsSync_ensureDir (fs : FsState) (d : String) :
    existsSyncDir (ensureDir fs d) d = true := by
  unfold ensureDir
  by_cases h : existsSyncDir fs d = true
  · rw [if_pos h]
    exact h
  · rw [if_neg h]
    unfold existsSyncDir mkdirSyncRec
    simp

/-- Writing the same path twice keeps only the second content. -/
theorem setFile_setFile : ∀ (files : List (String × String)) (p c₁ c₂ : String),
    setFile (setFile files p c₁) p c₂ = setFile files p c₂ := by
  intro files p c₁ c₂
  induction files with
  | nil => simp [setFile]
  | cons e rest ih =>
    obtain ⟨q, d⟩ := e
    by_cases h : q = p
    · subst h
      simp [setFile]
    · simp [setFile, h, ih]

/-- A written file reads back as exactly the written content. -/
theorem lookup_setFile : ∀ (files : List (String × String)) (p c : String),
    (setFile files p c).lookup p = some c := by
  intro files p c
  induction files with
  | nil => simp [setFile, List.lookup]
  | cons e rest ih =>
    obtain ⟨q, d⟩ := e
    by_cases h : q = p
    · subst h
      simp [setFile, List.lookup]
    · have hpq : (p == q) = false := by
        rw [beq_eq_false_iff_ne]
        exact Ne.symm h
      simp [setFile, h, List.lookup, hpq, ih]

/-- The source's `capitalize` agrees with the spec's formula
`uppercase(first char of lower) + rest(lower)`. -/
theorem capitalizeAgree (s : String) : jsCapitalize s = specCapitalized s := by
  obtain ⟨l⟩ := s
  cases l <;> rfl

/-- C1: for every nesting depth d (= number of folder segments), the
up-traversal prefix the nested generators embed in their import paths is
exactly d + 2 repetitions of `..` joined by `/` (the spec's `d + K` with
K = 2), and the generated controller/validation artifacts contain the
corresponding shared-infrastructure import statements built from exactly
that prefix. -/
theorem claim1_up_traversal_depth_plus_two (d : Nat) (segs : List String) (name cap : String)
    (h : segs.length = d) :
    upTraversal segs = specUpTraversal d 2 ∧
    OrderedOcc (genCControllerContent segs name cap)
      ["import ServerResponse from '" ++ specUpTraversal d 2 ++
        "/helpers/responses/custom-response';"] ∧
    OrderedOcc (genCValidationContent segs name cap)
      ["import zodErrorHandler from '" ++ specUpTraversal d 2 ++
        "/handlers/zod-error-handler';"] ∧
    OrderedOcc (genDControllerContent segs name cap)
      ["import ServerResponse from '" ++ specUpTraversal d 2 ++
        "/helpers/responses/custom-response';"] := by
  subst h
  exact ⟨rfl,
    OrderedOcc.skip _ _ _ (OrderedOcc.found _ _ _ (OrderedOcc.nil _)),
    OrderedOcc.skip _ _ _ (OrderedOcc.found _ _ _ (OrderedOcc.nil _)),
    OrderedOcc.skip _ _ _ (OrderedOcc.skip _ _ _ (OrderedOcc.skip _ _ _ (OrderedOcc.skip _ _ _ (OrderedOcc.skip _ _ _
      (OrderedOcc.found _ _ _ (OrderedOcc.nil _))))))⟩

/-- Witness for C1 at depth 5. -/
theorem claim1_up_traversal_witness :
    (["billing", "invoices", "x", "y", "z"] : List String).length = 5 ∧
    specUpTraversal 5 2 = "../../../../../../.." ∧
    (upTraversal ["billing", "invoices", "x", "y", "z"] = specUpTraversal 5 2 ∧
     OrderedOcc (genCControllerContent ["billing", "invoices", "x", "y", "z"] "user" "User")
       ["import ServerResponse from '" ++ specUpTraversal 5 2 ++
         "/helpers/responses/custom-response';"] ∧
     OrderedOcc (genCValidationContent ["billing", "invoices", "x", "y", "z"] "user" "User")
       ["import zodErrorHandler from '" ++ specUpTraversal 5 2 ++
         "/handlers/zod-error-handler';"] ∧
     OrderedOcc (genDControllerContent ["billing", "invoices", "x", "y", "z"] "user" "User")
       ["import ServerResponse from '" ++ specUpTraversal 5 2 ++
         "/helpers/responses/custom-response';"]) :=
  ⟨by decide, by decide,
   claim1_up_traversal_depth_plus_two 5 ["billing", "invoices", "x", "y", "z"] "user" "User"
     (by decide)⟩

/-- C2 counterexample: on input "foo/" (empty final segment) the nested
generator does not fail; it derives the empty resource name, creates the
two directories, and writes all five files (with names like
`.controller.ts`). -/
theorem claim2_empty_leaf_counterexample :
    resourceNameOf "foo/" = "" ∧
    genCDirs "foo/" = ["src/routes/foo", "src/modules/foo"] ∧
    (genCWrites "foo/").map WriteOp.path =
      ["src/routes/foo/index.ts", "src/modules/foo/.controller.ts",
       "src/modules/foo/.model.ts", "src/modules/foo/.interface.ts",
       "src/modules/foo/.validation.ts"] := by
  decide

/-- C2 amended: for every raw input whose final path segment is empty, the
nested generator does not raise any error: it proceeds with an empty
resource name, still creates its two directories and still writes all five
artifacts. -/
theorem claim2_empty_leaf_no_failure (input : String) (h : leafOf input = "") :
    resourceNameOf input = "" ∧
    (genCDirs input).length = 2 ∧
    (genCWrites input).length = 5 ∧
    (genCReport input).length = 5 := by
  refine ⟨?_, rfl, rfl, rfl⟩
  unfold resourceNameOf
  rw [h]
  rfl

/-- Witness for the amended C2 at input "foo/". -/
theorem claim2_empty_leaf_witness :
    leafOf "foo/" = "" ∧
    (resourceNameOf "foo/" = "" ∧
     (genCDirs "foo/").length = 2 ∧
     (genCWrites "foo/").length = 5 ∧
     (genCReport "foo/").length = 5) :=
  ⟨by decide, claim2_empty_leaf_no_failure "foo/" (by decide)⟩

/-- C3 counterexample: at input "user" the byte count of the first report
line (the route artifact) is not the byte length of the content written to
that file — the report measures the untrimmed template, the write stores
the trimmed one. -/
theorem claim3_report_bytes_counterexample :
    ((genCReport "user").map ReportEntry.bytes).head? ≠
      ((genCWrites "user").map (fun w => utf8Bytes w.content)).head? := by
  intro h
  have h1 : some (utf8Bytes (genCRouteContent (foldersOf "user") (resourceNameOf "user")
        (jsCapitalize (resourceNameOf "user")))) =
      some (utf8Bytes (jsTrim (genCRouteContent (foldersOf "user") (resourceNameOf "user")
        (jsCapitalize (resourceNameOf "user"))))) := h
  have hlt : utf8Bytes (jsTrim (genCRouteContent (foldersOf "user") (resourceNameOf "user")
        (jsCapitalize (resourceNameOf "user")))) <
      utf8Bytes (genCRouteContent (foldersOf "user") (resourceNameOf "user")
        (jsCapitalize (resourceNameOf "user"))) :=
    trimBytesLt _ _ (by decide)
  exact absurd (Option.some.inj h1).symm (Nat.ne_of_lt hlt)

/-- C3 amended: each report entry carries the UTF-8 byte length of the raw
rendered template for its artifact (`Buffer.byteLength(content)`), while
the file is written with the trimmed template (`content.trim()`), whose
byte length is strictly smaller. -/
theorem claim3_report_bytes_untrimmed (input : String) (segs : List String) (name cap : String) :
    (genCReport input).map (fun e => (e.kind, e.bytes)) =
      (genCRawsReportOrder input).map (fun q => (q.1, utf8Bytes q.2)) ∧
    (genCWrites input).map (fun w => (w.kind, w.content)) =
      (genCRawsWriteOrder input).map (fun q => (q.1, jsTrim q.2)) ∧
    utf8Bytes (jsTrim (genCRouteContent segs name cap)) <
      utf8Bytes (genCRouteContent segs name cap) ∧
    utf8Bytes (jsTrim (genCControllerContent segs name cap)) <
      utf8Bytes (genCControllerContent segs name cap) ∧
    utf8Bytes (jsTrim (genCModelContent segs name cap)) <
      utf8Bytes (genCModelContent segs name cap) ∧
    utf8Bytes (jsTrim (genCInterfaceContent segs name cap)) <
      utf8Bytes (genCInterfaceContent segs name cap) ∧
    utf8Bytes (jsTrim (genCValidationContent segs name cap)) <
      utf8Bytes (genCValidationContent segs name cap) :=
  ⟨rfl, rfl, trimBytesLt _ _ (by decide), trimBytesLt _ _ (by decide),
   trimBytesLt _ _ (by decide), trimBytesLt _ _ (by decide), trimBytesLt _ _ (by decide)⟩

/-- C4 counterexample: at input "user" the kinds in write order differ from
the kinds in report order, for both nested generators (genC swaps
model/interface; genD reports alphabetically). -/
theorem claim4_report_order_counterexample :
    (genCWrites "user").map WriteOp.kind ≠ (genCReport "user").map ReportEntry.kind ∧
    (genDWrites "user").map WriteOp.kind ≠ (genDReport "user").map ReportEntry.kind := by
  decide

/-- C4 amended: each report lists exactly one entry per written artifact
(the report paths are a permutation of the write paths), but in a fixed
per-generator order that differs from the write (production) order: genC
writes route, controller, model, interface, validation yet reports route,
controller, interface, model, validation; genD writes route, controller,
model, interface, validation, service yet reports controller, interface,
model, route, service, validation. -/
theorem claim4_report_order_fixed (input : String) :
    (genCWrites input).map WriteOp.kind =
      [.route, .controller, .model, .interface, .validation] ∧
    (genCReport input).map ReportEntry.kind =
      [.route, .controller, .interface, .model, .validation] ∧
    List.Perm ((genCReport input).map ReportEntry.path) ((genCWrites input).map WriteOp.path) ∧
    (genDWrites input).map WriteOp.kind =
      [.route, .controller, .model, .interface, .validation, .service] ∧
    (genDReport input).map ReportEntry.kind =
      [.controller, .interface, .model, .route, .service, .validation] ∧
    List.Perm ((genDReport input).map ReportEntry.path) ((genDWrites input).map WriteOp.path) :=
  ⟨rfl, rfl, perm_swap_mid5 _ _ _ _ _, rfl, rfl, perm_report_write6 _ _ _ _ _ _⟩

/-- C5: every route template (all four generators) registers exactly the
eight statements, in the fixed order create-one, create-many, update-many,
update-one, delete-many, delete-one, get-many, get-one; in particular the
`/many`-suffixed registration of each update/delete/get group appears in
the text before the `/:id`-suffixed one (positions 3 before 4, 5 before 6,
7 before 8 of the list). -/
theorem claim5_route_declaration_order (segs : List String) (name cap : String) :
    routeStmts name cap =
      [stmtCreateOne name cap, stmtCreateMany name cap, stmtUpdateMany name cap,
       stmtUpdateOne name cap, stmtDeleteMany name cap, stmtDeleteOne name cap,
       stmtGetMany name cap, stmtGetOne name cap] ∧
    (routeStmts name cap).length = 8 ∧
    OrderedOcc (genARouteContent name cap) (routeStmts name cap) ∧
    OrderedOcc (genBRouteContent name cap) (routeStmts name cap) ∧
    OrderedOcc (genCRouteContent segs name cap) (routeStmts name cap) ∧
    OrderedOcc (genDRouteContent segs name cap) (routeStmts name cap) :=
  ⟨rfl, rfl, cio_genARoute name cap, cio_genBRoute name cap,
   cio_genCRoute segs name cap, cio_genDRoute segs name cap⟩

/-- C6 counterexample: the leaf name is lowercased but never trimmed: input
"User " (trailing blank) yields lower variant "user ", not the trimmed
"user". -/
theorem claim6_name_variants_counterexample :
    resourceNameOf "User " = "user " ∧
    jsTrim (jsToLower "User ") = "user" ∧
    resourceNameOf "User " ≠ jsTrim (jsToLower "User ") := by
  decide

/-- C6 amended: for every non-empty raw leaf input, lower equals the
case-folded input with no trimming, and capitalized equals the uppercase of
the first character of lower followed by the rest of lower unchanged. -/
theorem claim6_name_variants_untrimmed (input : String) (h : input ≠ "") :
    resourceNameOf input = jsToLower (leafOf input) ∧
    jsCapitalize (resourceNameOf input) = specCapitalized (resourceNameOf input) :=
  ⟨rfl, capitalizeAgree _⟩

/-- Witness for the amended C6 at input "user". -/
theorem claim6_name_variants_witness :
    ("user" : String) ≠ "" ∧
    (resourceNameOf "user" = jsToLower (leafOf "user") ∧
     jsCapitalize (resourceNameOf "user") = specCapitalized (resourceNameOf "user")) :=
  ⟨by decide, claim6_name_variants_untrimmed "user" (by decide)⟩

/-- C7: materialization is idempotent w.r.t. pre-existing state: the guarded
mkdir is a no-op (not an error) when the directory exists, doing it twice
equals doing it once, and a second write to the same path fully replaces
the first content — the state after writing c₁ then c₂ equals the state
after writing only c₂, and reading back yields exactly c₂. -/
theorem claim7_materialization_idempotent (fs : FsState) (d p c₁ c₂ : String) :
    existsSyncDir (ensureDir fs d) d = true ∧
    ensureDir (ensureDir fs d) d = ensureDir fs d ∧
    writeFileSync (writeFileSync fs p c₁) p c₂ = writeFileSync fs p c₂ ∧
    readFileState (writeFileSync fs p c₂) p = some c₂ :=
  ⟨existsSync_ensureDir fs d,
   ensureDir_of_exists _ _ (existsSync_ensureDir fs d),
   by unfold writeFileSync; rw [setFile_setFile],
   by unfold readFileState writeFileSync; exact lookup_setFile fs.files p c₂⟩

/-- C8: rendering is deterministic — the template functions are pure, so two
calls with identical arguments (same generator, kind, segments and name
variants) yield the same string; the embedded templates contain no
timestamps or other invocation-dependent data. -/
theorem claim8_render_deterministic (g : GenVariant) (k : ArtifactKind)
    (segs : List String) (name cap : String) :
    render g k segs name cap = render g k segs name cap := rfl

/-- C9: input "user" under the colocated-with-service generator produces
exactly 6 artifacts of kinds Route, Controller, Model, Interface,
Validation, Service, all under `src/modules/user`; the report has 6
entries; the written route content is the trimmed route template, and the
route template registers the eight statements referencing identifiers
capitalized as `User`. -/
theorem claim9_user_colocated_scenario :
    (genBWrites "user").length = 6 ∧
    (genBWrites "user").map WriteOp.kind =
      [.route, .controller, .model, .interface, .validation, .service] ∧
    (genBWrites "user").map WriteOp.path =
      ["src/modules/user/user.route.ts", "src/modules/user/user.controller.ts",
       "src/modules/user/user.model.ts", "src/modules/user/user.interface.ts",
       "src/modules/user/user.validation.ts", "src/modules/user/user.service.ts"] ∧
    (genBReport "user").length = 6 ∧
    jsCapitalize (resourceNameOf "user") = "User" ∧
    OrderedOcc (genBRouteContent "user" "User")
      ["router.post(\"/create-user\", createUser);",
       "router.post(\"/create-user/many\", createManyUser);",
       "router.put(\"/update-user/many\", updateManyUser);",
       "router.put(\"/update-user/:id\", validateUserId, updateUser);",
       "router.delete(\"/delete-user/many\", deleteManyUser);",
       "router.delete(\"/delete-user/:id\", validateUserId, deleteUser);",
       "router.get(\"/get-user/many\", getManyUser);",
       "router.get(\"/get-user/:id\", validateUserId, getUserById);"] := by
  refine ⟨rfl, by decide, by decide, rfl, by decide, ?_⟩
  have h := cio_genBRoute "user" "User"
  have heq : routeStmts "user" "User" =
      ["router.post(\"/create-user\", createUser);",
       "router.post(\"/create-user/many\", createManyUser);",
       "router.put(\"/update-user/many\", updateManyUser);",
       "router.put(\"/update-user/:id\", validateUserId, updateUser);",
       "router.delete(\"/delete-user/many\", deleteManyUser);",
       "router.delete(\"/delete-user/:id\", validateUserId, deleteUser);",
       "router.get(\"/get-user/many\", getManyUser);",
       "router.get(\"/get-user/:id\", validateUserId, getUserById);"] := by decide
  exact heq ▸ h

/-- C10: every artifact of every generator is written as the rendered
template with `trim()` applied, and for every template and every input the
trimmed string is non-empty, neither begins nor ends with whitespace, and
differs from the raw render, which begins with a newline. -/
theorem claim10_written_content_trimmed (segs : List String) (name cap input : String) :
    (genAWrites input).map WriteOp.content = (genARawContents input).map jsTrim ∧
    (genBWrites input).map WriteOp.content = (genBRawContents input).map jsTrim ∧
    (genCWrites input).map WriteOp.content = (genCRawContents input).map jsTrim ∧
    (genDWrites input).map WriteOp.content = (genDRawContents input).map jsTrim ∧
    TrimGood (genARouteContent name cap) ∧
    TrimGood (genAControllerContent name cap) ∧
    TrimGood (genAModelContent name cap) ∧
    TrimGood (genAInterfaceContent name cap) ∧
    TrimGood (genAValidationContent name cap) ∧
    TrimGood (genBRouteContent name cap) ∧
    TrimGood (genBControllerContent name cap) ∧
    TrimGood (genBModelContent name cap) ∧
    TrimGood (genBInterfaceContent name cap) ∧
    TrimGood (genBValidationContent name cap) ∧
    TrimGood (genBServiceContent name cap) ∧
    TrimGood (genCRouteContent segs name cap) ∧
    TrimGood (genCControllerContent segs name cap) ∧
    TrimGood (genCModelContent segs name cap) ∧
    TrimGood (genCInterfaceContent segs name cap) ∧
    TrimGood (genCValidationContent segs name cap) ∧
    TrimGood (genDRouteContent segs name cap) ∧
    TrimGood (genDControllerContent segs name cap) ∧
    TrimGood (genDModelContent segs name cap) ∧
    TrimGood (genDInterfaceContent segs name cap) ∧
    TrimGood (genDValidationContent segs name cap) ∧
    TrimGood (genDServiceContent segs name cap) :=
  ⟨rfl, rfl, rfl, rfl,
   trimGood_concat _ _ (by decide), trimGood_concat _ _ (by decide),
   trimGood_concat _ _ (by decide), trimGood_concat _ _ (by decide),
   trimGood_concat _ _ (by decide), trimGood_concat _ _ (by decide),
   trimGood_concat _ _ (by decide), trimGood_concat _ _ (by decide),
   trimGood_concat _ _ (by decide), trimGood_concat _ _ (by decide),
   trimGood_concat _ _ (by decide), trimGood_concat _ _ (by decide),
   trimGood_concat _ _ (by decide), trimGood_concat _ _ (by decide),
   trimGood_concat _ _ (by decide), trimGood_concat _ _ (by decide),
   trimGood_concat _ _ (by decide), trimGood_concat _ _ (by decide),
   trimGood_concat _ _ (by decide), trimGood_concat _ _ (by decide),
   trimGood_concat _ _ (by decide), trimGood_concat _ _ (by decide)⟩
